import Mathlib

/-!
# e-shop: cart totals and cart store operations

A shallow embedding of `backend/routes/cartRoutes.js`, with the handlers of
`authRoutes.js`, the creation handler of `productRoutes.js` and the totals shown
by the Cart page (`frontend/src/pages/Cart.jsx`).

* JavaScript numbers that carry money or quantities are exact rationals (`ℚ`);
  NaN and the infinities are not values of the model.
* Identifiers produced by `parseInt` are `Option ℤ`, where `none` is NaN.
* A MongoDB collection is a list of documents in natural (insertion) order.
  Store calls always succeed, so the `catch` branches (status 500) are not
  reachable in the model.  Fields no handler reads (`createdAt`, the generated
  `_id` of a cart document) are left out of the documents.
* Every handler returns its response, the store afterwards and the list of
  store calls it made, in order.
-/

namespace EShop

/-! ## JavaScript values and built-ins -/

/-- A primitive JSON value as found in a request body or query string.
Arrays and objects are not modelled. -/
inductive JVal where
  | undefined
  | null
  | bool (b : Bool)
  | num (q : ℚ)
  | str (s : String)
deriving DecidableEq, Repr

/-- Result of `parseInt`: an integer, or `none` for NaN. -/
abbrev IntOrNaN := Option ℤ

/-- JavaScript truthiness, the negation of `!v`. -/
def truthy : JVal → Bool
  | .undefined => false
  | .null => false
  | .bool b => b
  | .num q => decide (q ≠ 0)
  | .str s => decide (s ≠ "")

/-- The test `typeof v === 'number'`. -/
def isNumber : JVal → Bool
  | .num _ => true
  | _ => false

/-- Strict equality `===` on identifiers: NaN is not equal to anything. -/
def strictEq : IntOrNaN → IntOrNaN → Bool
  | some a, some b => decide (a = b)
  | _, _ => false

/-- White space and line terminators skipped at the start of the input of `parseInt`. -/
def isStrWhiteSpaceChar (c : Char) : Bool :=
  let n := c.toNat
  n = 0x9 || n = 0xA || n = 0xB || n = 0xC || n = 0xD || n = 0x20 || n = 0xA0 ||
  n = 0x1680 || (0x2000 ≤ n && n ≤ 0x200A) || n = 0x2028 || n = 0x2029 ||
  n = 0x202F || n = 0x205F || n = 0x3000 || n = 0xFEFF

/-- Value of a character as a digit in radix `R`, if it is one. -/
def digitValue (R : ℕ) (c : Char) : Option ℕ :=
  let n := c.toNat
  let v : Option ℕ :=
    if 48 ≤ n ∧ n ≤ 57 then some (n - 48)
    else if 97 ≤ n ∧ n ≤ 122 then some (n - 87)
    else if 65 ≤ n ∧ n ≤ 90 then some (n - 55)
    else none
  v.bind fun d => if d < R then some d else none

/-- The longest run of radix-`R` digits at the start of the input, as digit values. -/
def leadingDigits (R : ℕ) : List Char → List ℕ
  | [] => []
  | c :: cs =>
    match digitValue R c with
    | some d => d :: leadingDigits R cs
    | none => []

/-- `parseInt(s)` for a string `s` given as its characters, no radix argument:
skip white space, read a sign, switch to radix 16 after `0x` or `0X`, read
the longest run of digits; NaN when that run is empty. -/
def parseIntChars (cs : List Char) : IntOrNaN :=
  let s := cs.dropWhile isStrWhiteSpaceChar
  let neg : Bool := match s with
    | '-' :: _ => true
    | _ => false
  let s1 := match s with
    | '-' :: t => t
    | '+' :: t => t
    | _ => s
  let R : ℕ := match s1 with
    | '0' :: 'x' :: _ => 16
    | '0' :: 'X' :: _ => 16
    | _ => 10
  let s2 := match s1 with
    | '0' :: 'x' :: t => t
    | '0' :: 'X' :: t => t
    | _ => s1
  let ds := leadingDigits R s2
  if ds.isEmpty then none
  else
    let m : ℕ := ds.foldl (fun acc d => acc * R + d) 0
    some (if neg then -(m : ℤ) else (m : ℤ))

/-- First significant decimal digit of a positive rational. -/
def firstDigit (a : ℚ) : ℤ :=
  if 1 ≤ a then
    let n := ⌊a⌋.toNat
    ((n / 10 ^ Nat.log 10 n : ℕ) : ℤ)
  else
    ⌊a * 10 ^ Nat.clog 10 ⌈1 / a⌉.toNat⌋

/-- `parseInt(x)` for a number `x`: the digits before the first `.` or `e` of
its string form.  That form is plain decimal for `10⁻⁶ ≤ |x| < 10²¹` and
scientific with one leading digit otherwise. -/
def parseIntNum (x : ℚ) : IntOrNaN :=
  if x = 0 then some 0
  else
    let a := |x|
    let m : ℤ := if a < 1 / 10 ^ 6 ∨ 10 ^ 21 ≤ a then firstDigit a else ⌊a⌋
    some (if x < 0 then -m else m)

/-- The global `parseInt` applied to a request value. -/
def parseInt : JVal → IntOrNaN
  | .str s => parseIntChars s.toList
  | .num q => parseIntNum q
  | _ => none

/-- The composite `parseFloat(x.toFixed(2))` in exact arithmetic: the
magnitude is rounded to the nearest hundredth, a tie going up, and the sign is
put back. -/
def round2 (x : ℚ) : ℚ :=
  let n : ℤ := ⌊|x| * 100 + 1 / 2⌋
  if x < 0 then -((n : ℚ) / 100) else (n : ℚ) / 100

/-! ## Data model -/

/-- A document of the `products` collection. -/
structure Product where
  _id : IntOrNaN
  name : String
  price : ℚ
  category : String
  imageUrl : String
  description : String
  details : List String
deriving DecidableEq, Repr

/-- A document of the `cart` collection. -/
structure CartLine where
  userId : IntOrNaN
  productId : IntOrNaN
  qty : ℚ
deriving DecidableEq, Repr

/-- A document of the `users` collection. -/
structure User where
  _id : String
  name : String
  email : String
  password : String
deriving DecidableEq, Repr

/-- An enriched line of the cart view. -/
structure CartItem where
  productId : IntOrNaN
  name : String
  price : ℚ
  qty : ℚ
  imageUrl : String
  lineTotal : ℚ
deriving DecidableEq, Repr

/-- The object returned by `calculateTotals`. -/
structure CartView where
  items : List CartItem
  subtotal : ℚ
  shipping : ℚ
  tax : ℚ
  grandTotal : ℚ
deriving DecidableEq, Repr

/-! ## calculateTotals -/

def SHIPPING_COST : ℚ := 15

def TAX_RATE : ℚ := 8 / 100

/-- The lookup `allProducts.find(p => p._id === item.productId)`: the first
product with the identifier of the line, `none` when there is none. -/
def resolve (allProducts : List Product) (item : CartLine) : Option Product :=
  allProducts.find? fun p => strictEq p._id item.productId

/-- One call of the callback passed to `cartItems.map`: the running
`subtotal` afterwards and the value returned (`none` is `null`). -/
def mapLine (allProducts : List Product) (subtotal : ℚ) (item : CartLine) :
    ℚ × Option CartItem :=
  match resolve allProducts item with
  | some product =>
    let lineTotal := item.qty * product.price
    (subtotal + lineTotal,
      some { productId := item.productId
             name := product.name
             price := product.price
             qty := item.qty
             imageUrl := product.imageUrl
             lineTotal := round2 lineTotal })
  | none => (subtotal, none)

/-- The `cartItems.map(...)` loop, threading `subtotal` through the calls. -/
def mapLines (allProducts : List Product) : ℚ → List CartLine → ℚ × List (Option CartItem)
  | subtotal, [] => (subtotal, [])
  | subtotal, item :: rest =>
    let r := mapLine allProducts subtotal item
    let rs := mapLines allProducts r.1 rest
    (rs.1, r.2 :: rs.2)

def calculateTotals (cartItems : List CartLine) (allProducts : List Product) : CartView :=
  let mapped := mapLines allProducts 0 cartItems
  let subtotal := mapped.1
  let detailedCart := mapped.2.filterMap id
  let tax := subtotal * TAX_RATE
  let grandTotal := subtotal + tax + SHIPPING_COST
  { items := detailedCart
    subtotal := round2 subtotal
    shipping := SHIPPING_COST
    tax := round2 tax
    grandTotal := round2 grandTotal }

/-- Sum, over the lines that resolve, of the unrounded products `qty × price`. -/
def rawSubtotal (cartItems : List CartLine) (allProducts : List Product) : ℚ :=
  (cartItems.filterMap fun l => (resolve allProducts l).map fun p => l.qty * p.price).sum

/-- A line resolves when some product has its identifier (under `===`). -/
def resolvable (allProducts : List Product) (item : CartLine) : Bool :=
  allProducts.any fun p => strictEq p._id item.productId

/-! ## The store -/

/-- The three collections handed to the routers. -/
structure Db where
  users : List User
  products : List Product
  cart : List CartLine
deriving DecidableEq, Repr

/-- The filter `{ userId: u, productId: p }` applied to a cart document.
A query for NaN matches a stored NaN. -/
def matchesLine (u p : IntOrNaN) (l : CartLine) : Bool :=
  decide (l.userId = u) && decide (l.productId = p)

/-- Result of `db.cart().find({ userId: u }).toArray()`. -/
def cartFind (cart : List CartLine) (u : IntOrNaN) : List CartLine :=
  cart.filter fun l => decide (l.userId = u)

/-- Result of `db.products().findOne({ _id: id })`. -/
def productsFindOne (products : List Product) (id : IntOrNaN) : Option Product :=
  products.find? fun p => decide (p._id = id)

/-- The collection after `db.cart().deleteOne({ userId: u, productId: p })`:
the first matching document is removed. -/
def cartDeleteOne (cart : List CartLine) (u p : IntOrNaN) : List CartLine :=
  cart.eraseP (matchesLine u p)

/-- The `deletedCount` reported by that `deleteOne`. -/
def deletedCount (cart : List CartLine) (u p : IntOrNaN) : ℕ :=
  if cart.any (matchesLine u p) then 1 else 0

/-- The collection after
`db.cart().updateOne({ userId: u, productId: p }, { $set: { qty: q } }, { upsert: true })`:
the first matching document gets the new `qty`; when none matches, the
document built from the filter and the update is inserted. -/
def cartUpdateOne (u p : IntOrNaN) (q : ℚ) : List CartLine → List CartLine
  | [] => [{ userId := u, productId := p, qty := q }]
  | l :: ls =>
    if matchesLine u p l then { l with qty := q } :: ls
    else l :: cartUpdateOne u p q ls

/-- The collection after `db.cart().deleteMany({ userId: u })`. -/
def cartDeleteMany (cart : List CartLine) (u : IntOrNaN) : List CartLine :=
  cart.filter fun l => !decide (l.userId = u)

/-- A call made on the store. -/
inductive DbOp where
  | productsFind
  | productsFindOne (id : IntOrNaN)
  | cartFind (userId : IntOrNaN)
  | cartDeleteOne (userId productId : IntOrNaN)
  | cartUpdateOne (userId productId : IntOrNaN) (qty : ℚ)
  | cartDeleteMany (userId : IntOrNaN)
  | usersFindOne (email : String)
  | usersInsertOne (user : User)
  | productsInsertOne (product : Product)
deriving DecidableEq, Repr

/-! ## Requests and responses -/

/-- The `customer` object of a receipt. -/
structure Customer where
  name : JVal
  email : JVal
  userId : IntOrNaN
deriving DecidableEq, Repr

/-- The mock receipt built by checkout. -/
structure Receipt where
  orderId : ℤ
  timestamp : String
  customer : Customer
  totalPaid : ℚ
  items : List CartItem
deriving DecidableEq, Repr

/-- The JSON body of a response. -/
inductive Body where
  | message (message : String)
  | view (view : CartView)
  | receipt (message : String) (receipt : Receipt)
  | registered (message : String) (userId : String)
  | productExists (id : JVal)
  | created (message : String) (product : Product)
  | loggedIn (message : String) (id name email : String)
deriving DecidableEq, Repr

structure Response where
  status : ℕ
  body : Body
deriving DecidableEq, Repr

/-- What a handler does: the response sent, the store afterwards, and the
store calls made, in order. -/
structure Outcome where
  response : Response
  db : Db
  calls : List DbOp
deriving DecidableEq, Repr

/-- Body of `POST /api/cart`. -/
structure CartBody where
  userId : JVal
  productId : JVal
  qty : JVal
deriving DecidableEq, Repr

/-- Body of `POST /api/cart/checkout`.  `cartItems` is the array of
`{ productId, qty }` objects the Checkout page sends. -/
structure CheckoutBody where
  name : JVal
  email : JVal
  grandTotal : JVal
  cartItems : List (JVal × JVal)
  userId : JVal
deriving DecidableEq, Repr

/-! ## Route handlers -/

/-- Handler of `GET /api/cart?userId=...`. -/
def getCart (db : Db) (userId : JVal) : Outcome :=
  if !truthy userId then
    { response := ⟨401, .message "User ID is required to view cart."⟩, db := db, calls := [] }
  else
    let userIdInt := parseInt userId
    let cartItems := cartFind db.cart userIdInt
    let allProducts := db.products
    { response := ⟨200, .view (calculateTotals cartItems allProducts)⟩
      db := db
      calls := [.cartFind userIdInt, .productsFind] }

/-- The 400 answer of `POST /api/cart`. -/
def invalidCartBody (db : Db) : Outcome :=
  { response := ⟨400, .message "User ID and valid Quantity are required."⟩, db := db, calls := [] }

/-- Handler of `POST /api/cart`. -/
def postCart (db : Db) (body : CartBody) : Outcome :=
  let prodIdNum := parseInt body.productId
  let userIdInt := parseInt body.userId
  match body.qty with
  | .num qty =>
    if !truthy body.userId || decide (qty < 0) then invalidCartBody db
    else
      match productsFindOne db.products prodIdNum with
      | none =>
        { response := ⟨404, .message "Product not found."⟩
          db := db
          calls := [.productsFindOne prodIdNum] }
      | some _ =>
        let db1 : Db :=
          if qty = 0 then { db with cart := cartDeleteOne db.cart userIdInt prodIdNum }
          else { db with cart := cartUpdateOne userIdInt prodIdNum qty db.cart }
        let write : DbOp :=
          if qty = 0 then .cartDeleteOne userIdInt prodIdNum
          else .cartUpdateOne userIdInt prodIdNum qty
        let updatedCartItems := cartFind db1.cart userIdInt
        let allProducts := db1.products
        { response := ⟨200, .view (calculateTotals updatedCartItems allProducts)⟩
          db := db1
          calls := [.productsFindOne prodIdNum, write, .cartFind userIdInt, .productsFind] }
  | _ => invalidCartBody db

/-- Handler of `DELETE /api/cart/:id?userId=...`; `id` is the path segment. -/
def deleteCart (db : Db) (id : String) (userId : JVal) : Outcome :=
  let productId := parseInt (.str id)
  let userIdInt := parseInt userId
  if !truthy userId then
    { response := ⟨401, .message "User ID is required to modify cart."⟩, db := db, calls := [] }
  else
    let db1 : Db := { db with cart := cartDeleteOne db.cart userIdInt productId }
    if deletedCount db.cart userIdInt productId = 0 then
      { response := ⟨404, .message "Item not found in cart."⟩
        db := db1
        calls := [.cartDeleteOne userIdInt productId] }
    else
      let updatedCartItems := cartFind db1.cart userIdInt
      let allProducts := db1.products
      { response := ⟨200, .view (calculateTotals updatedCartItems allProducts)⟩
        db := db1
        calls := [.cartDeleteOne userIdInt productId, .cartFind userIdInt, .productsFind] }

/-- Handler of `POST /api/cart/checkout`.  `random` is the value returned by
`Math.random()` and `timestamp` the string returned by
`new Date().toISOString()`. -/
def checkout (db : Db) (body : CheckoutBody) (random : ℚ) (timestamp : String) : Outcome :=
  let userIdInt := parseInt body.userId
  if !truthy body.userId || !truthy body.name || !truthy body.email then
    { response := ⟨400, .message "User ID, name, and email are required for checkout."⟩
      db := db
      calls := [] }
  else
    let cartData := cartFind db.cart userIdInt
    if cartData.length = 0 then
      { response := ⟨400, .message "Cannot checkout with an empty cart."⟩
        db := db
        calls := [.cartFind userIdInt] }
    else
      let allProducts := db.products
      let totals := calculateTotals cartData allProducts
      let receipt : Receipt :=
        { orderId := ⌊random * 1000000⌋
          timestamp := timestamp
          customer := { name := body.name, email := body.email, userId := userIdInt }
          totalPaid := totals.grandTotal
          items := totals.items }
      { response := ⟨200, .receipt "Checkout successful!" receipt⟩
        db := { db with cart := cartDeleteMany db.cart userIdInt }
        calls := [.cartFind userIdInt, .productsFind, .cartDeleteMany userIdInt] }

/-! ## Registration and product creation

The bodies of these two routes are typed after the data model: a text field is
a string, and a text field that is absent is the empty string (`!` holds for
both).  `id` and `price` stay JSON values. -/

/-- Digits of a decimal fraction read as a number: `[2, 5]` is 25/100. -/
def fractionValue (ds : List ℕ) : ℚ :=
  (ds.foldl (fun acc d => acc * 10 + d) 0 : ℕ) / (10 : ℚ) ^ ds.length

/-- `parseFloat(s)` for a string `s` given as its characters: skip white
space, read a sign, digits, an optional `.` with digits and an optional
exponent; `none` when the result is not a finite number (NaN, or `Infinity`). -/
def parseFloatChars (cs : List Char) : Option ℚ :=
  let s := cs.dropWhile isStrWhiteSpaceChar
  let neg : Bool := match s with
    | '-' :: _ => true
    | _ => false
  let s1 := match s with
    | '-' :: t => t
    | '+' :: t => t
    | _ => s
  let intDigits := leadingDigits 10 s1
  let s2 := s1.drop intDigits.length
  let fracDigits := match s2 with
    | '.' :: t => leadingDigits 10 t
    | _ => []
  let s3 := match s2 with
    | '.' :: t => t.drop fracDigits.length
    | _ => s2
  if intDigits.isEmpty && fracDigits.isEmpty then none
  else
    let s4 := match s3 with
      | 'e' :: t => t
      | 'E' :: t => t
      | _ => []
    let expNeg : Bool := match s4 with
      | '-' :: _ => true
      | _ => false
    let s5 := match s4 with
      | '-' :: t => t
      | '+' :: t => t
      | _ => s4
    let e : ℕ := (leadingDigits 10 s5).foldl (fun acc d => acc * 10 + d) 0
    let m : ℚ := (intDigits.foldl (fun acc d => acc * 10 + d) 0 : ℕ) + fractionValue fracDigits
    let v : ℚ := if expNeg then m / 10 ^ e else m * 10 ^ e
    some (if neg then -v else v)

/-- The global `parseFloat` applied to a request value; `none` when the result
is not a finite number.  A number is read back from its own string form. -/
def parseFloat : JVal → Option ℚ
  | .str s => parseFloatChars s.toList
  | .num q => some q
  | _ => none

/-- Body of `POST /api/auth/register`. -/
structure RegisterBody where
  name : String
  email : String
  password : String
deriving DecidableEq, Repr

/-- Body of `POST /api/products`; `details` is `none` when absent. -/
structure ProductBody where
  id : JVal
  name : String
  price : JVal
  category : String
  imageUrl : String
  description : String
  details : Option (List String)
deriving DecidableEq, Repr

/-- Result of `db.users().findOne({ email })`. -/
def usersFindOne (users : List User) (email : String) : Option User :=
  users.find? fun u => decide (u.email = email)

/-- Handler of `POST /api/auth/register`.  `salt` is the value returned by
`bcrypt.genSalt(10)`, `hash` stands for `bcrypt.hash` and `insertedId` is the
identifier the store generates for the new document. -/
def register (db : Db) (body : RegisterBody) (salt : String)
    (hash : String → String → String) (insertedId : String) : Outcome :=
  if body.name = "" ∨ body.email = "" ∨ body.password = "" then
    { response := ⟨400, .message "All fields are required."⟩, db := db, calls := [] }
  else
    match usersFindOne db.users body.email with
    | some _ =>
      { response := ⟨409, .message "An account with this email already exists."⟩
        db := db
        calls := [.usersFindOne body.email] }
    | none =>
      let hashedPassword := hash body.password salt
      let newUser : User :=
        { _id := insertedId, name := body.name, email := body.email, password := hashedPassword }
      { response := ⟨201, .registered "Registration successful. Please log in." insertedId⟩
        db := { db with users := db.users ++ [newUser] }
        calls := [.usersFindOne body.email, .usersInsertOne newUser] }

/-- Handler of `POST /api/products`.  The 409 body `.productExists id` is the
message built from the template "Product ID (id) already exists.".  The result
is `none` when the document to insert has a price that is not a finite number,
which the data model cannot hold. -/
def createProduct (db : Db) (body : ProductBody) : Option Outcome :=
  if !truthy body.id ∨ body.name = "" ∨ !truthy body.price ∨ body.category = "" ∨
      body.imageUrl = "" ∨ body.description = "" ∨ body.details = none then
    some { response := ⟨400, .message "All fields are required."⟩, db := db, calls := [] }
  else
    let productIdInt := parseInt body.id
    match productsFindOne db.products productIdInt with
    | some _ =>
      some { response := ⟨409, .productExists body.id⟩
             db := db
             calls := [.productsFindOne productIdInt] }
    | none =>
      match parseFloat body.price, body.details with
      | some price, some details =>
        let newProduct : Product :=
          { _id := productIdInt
            name := body.name
            price := price
            category := body.category
            imageUrl := body.imageUrl
            description := body.description
            details := details }
        some { response := ⟨201, .created "Product added successfully." newProduct⟩
               db := { db with products := db.products ++ [newProduct] }
               calls := [.productsFindOne productIdInt, .productsInsertOne newProduct] }
      | _, _ => none

/-- The statuses of the client errors: 400, 401, 404 and 409. -/
def isClientError (status : ℕ) : Prop :=
  status = 400 ∨ status = 401 ∨ status = 404 ∨ status = 409

instance (status : ℕ) : Decidable (isClientError status) := by
  unfold isClientError; infer_instance

/-- The test `!id || !name || ... || !details` of product creation fails:
every field is supplied and truthy. -/
def allFieldsPresent (body : ProductBody) : Prop :=
  truthy body.id = true ∧ body.name ≠ "" ∧ truthy body.price = true ∧ body.category ≠ "" ∧
    body.imageUrl ≠ "" ∧ body.description ≠ "" ∧ body.details ≠ none

instance (body : ProductBody) : Decidable (allFieldsPresent body) := by
  unfold allFieldsPresent; infer_instance

/-! ## Login -/

/-- Body of `POST /api/auth/login`; an absent field is the empty string. -/
structure LoginBody where
  email : String
  password : String
deriving DecidableEq, Repr

/-- Handler of `POST /api/auth/login`.  `compare` stands for `bcrypt.compare`
applied to the submitted password and the stored hash. -/
def login (db : Db) (body : LoginBody) (compare : String → String → Bool) : Outcome :=
  if body.email = "" ∨ body.password = "" then
    { response := ⟨400, .message "Email and password are required."⟩, db := db, calls := [] }
  else
    match usersFindOne db.users body.email with
    | none =>
      { response := ⟨401, .message "Invalid credentials."⟩
        db := db
        calls := [.usersFindOne body.email] }
    | some user =>
      let isMatch := compare body.password user.password
      if !isMatch then
        { response := ⟨401, .message "Invalid credentials."⟩
          db := db
          calls := [.usersFindOne body.email] }
      else
        { response := ⟨200, .loggedIn "Login successful." user._id user.name user.email⟩
          db := db
          calls := [.usersFindOne body.email] }

/-! ## The Cart page

`cartData` is the state of the page: the view received from `GET /api/cart`,
or `none` while it is `null`. -/

/-- The expression `x || 0` for a number that may be undefined. -/
def orZero : Option ℚ → ℚ
  | some q => if q ≠ 0 then q else 0
  | none => 0

/-- The constant `cartItems` of the page: `cartData?.items || []`. -/
def pageItems (cartData : Option CartView) : List CartItem :=
  match cartData with
  | some d => d.items
  | none => []

/-- The constant `effectiveShipping` of the page.  With `cartData` null the
list of items is empty, so `totals.shipping` is not read. -/
def effectiveShipping (cartData : Option CartView) : ℚ :=
  if (pageItems cartData).length = 0 then 0
  else
    match cartData with
    | some d => d.shipping
    | none => 0

/-- The constant `effectiveGrandTotal` of the page. -/
def effectiveGrandTotal (cartData : Option CartView) : ℚ :=
  orZero (cartData.map fun d => d.subtotal) + orZero (cartData.map fun d => d.tax) +
    effectiveShipping cartData

/-! ## Invariants of the users and products collections -/

/-- No two users with the same email. -/
def UniqueEmails (users : List User) : Prop := (users.map fun u => u.email).Nodup

instance (users : List User) : Decidable (UniqueEmails users) := by
  unfold UniqueEmails; infer_instance

/-- No two products with the same `_id`. -/
def UniqueIds (products : List Product) : Prop := (products.map fun p => p._id).Nodup

instance (products : List Product) : Decidable (UniqueIds products) := by
  unfold UniqueIds; infer_instance

/-! ## Invariant of the cart collection -/

/-- The pair a cart document is identified by. -/
def lineKey (l : CartLine) : IntOrNaN × IntOrNaN := (l.userId, l.productId)

/-- The cart documents stored for the pair `(u, p)`. -/
def linesFor (cart : List CartLine) (u p : IntOrNaN) : List CartLine :=
  cart.filter (matchesLine u p)

/-- At most one cart document per `(userId, productId)`. -/
def UniqueLines (cart : List CartLine) : Prop := (cart.map lineKey).Nodup

instance (cart : List CartLine) : Decidable (UniqueLines cart) := by
  unfold UniqueLines; infer_instance

/-- The collection written by a successful `POST /api/cart`. -/
def cartAfterUpsert (cart : List CartLine) (u p : IntOrNaN) (q : ℚ) : List CartLine :=
  if q = 0 then cartDeleteOne cart u p else cartUpdateOne u p q cart

/-! ## Example data -/

/-- Cart of the worked example: one line, product 1, quantity 2. -/
def exampleLines : List CartLine := [{ userId := some 7, productId := some 1, qty := 2 }]

/-- Catalog of the worked example: product 1 priced 10.00. -/
def exampleCatalog : List Product :=
  [{ _id := some 1, name := "Mug", price := 10, category := "home", imageUrl := "mug.png",
     description := "A mug", details := [] }]

/-- Catalog with one product priced 1.054. -/
def milliCatalog : List Product :=
  [{ _id := some 1, name := "Bolt", price := 1054 / 1000, category := "tools",
     imageUrl := "bolt.png", description := "A bolt", details := [] }]

/-- Catalog with one product priced 0.0625. -/
def sixteenthCatalog : List Product :=
  [{ _id := some 1, name := "Bead", price := 625 / 10000, category := "craft",
     imageUrl := "bead.png", description := "A bead", details := [] }]

/-- One line for product 1 with quantity 1. -/
def singleLine : List CartLine := [{ userId := some 7, productId := some 1, qty := 1 }]

/-- Catalog with two products priced 1.004 and 2.004. -/
def fractionCatalog : List Product :=
  [{ _id := some 1, name := "Nut", price := 1004 / 1000, category := "tools",
     imageUrl := "nut.png", description := "A nut", details := [] },
   { _id := some 2, name := "Washer", price := 2004 / 1000, category := "tools",
     imageUrl := "washer.png", description := "A washer", details := [] }]

/-- One unit of product 1 and one unit of product 2. -/
def twoLines : List CartLine :=
  [{ userId := some 7, productId := some 1, qty := 1 },
   { userId := some 7, productId := some 2, qty := 1 }]

/-- Store of the examples: the catalog of the worked example and two cart lines. -/
def exampleDb : Db :=
  { users := []
    products := exampleCatalog
    cart := [{ userId := some 7, productId := some 1, qty := 2 },
             { userId := some 8, productId := some 1, qty := 1 }] }

/-- Checkout request of user 7 in the examples. -/
def exampleCheckout : CheckoutBody :=
  { name := .str "Ann", email := .str "ann@example.org", grandTotal := .num 0,
    cartItems := [], userId := .str "7" }

/-- Checkout request of user 9, who has no cart line in the example store. -/
def emptyCheckout : CheckoutBody :=
  { name := .str "Bob", email := .str "bob@example.org", grandTotal := .num 0,
    cartItems := [], userId := .str "9" }

/-- A registered user of the examples. -/
def exampleUser : User :=
  { _id := "665f1c2e8b3a4d5e6f708192", name := "Ann", email := "ann@example.org",
    password := "$2a$10$hash" }

/-- The example store with one registered user. -/
def registeredDb : Db := { exampleDb with users := [exampleUser] }

/-- A stand-in for `bcrypt.hash` in the examples. -/
def exampleHash (password salt : String) : String := salt ++ password

/-- Identifier of the first user of the two-user store, as login returns it. -/
def firstUserId : String := "665f1c2e8b3a4d5e6f708192"

/-- Identifier of the second user of the two-user store. -/
def secondUserId : String := "665f9a0b1c2d3e4f50617283"

/-- A store with two registered users, the example catalog and an empty cart. -/
def twoUserDb : Db :=
  { users := [{ _id := firstUserId, name := "Ann", email := "ann@example.org",
                password := "$2a$10$hashA" },
              { _id := secondUserId, name := "Bob", email := "bob@example.org",
                password := "$2a$10$hashB" }]
    products := exampleCatalog
    cart := [] }

/-- Registration request of a new user in the examples. -/
def beaRegister : RegisterBody :=
  { name := "Bea", email := "bea@example.org", password := "secret" }

/-- A stand-in for `bcrypt.compare` in the examples, matching `exampleHash`
with the salt "salt". -/
def exampleCompare (password hashed : String) : Bool := decide (hashed = "salt" ++ password)

/-- Request creating product 2, a pen priced 1.50. -/
def penBody : ProductBody :=
  { id := .num 2, name := "Pen", price := .str "1.50", category := "office",
    imageUrl := "pen.png", description := "A pen", details := some ["blue"] }

/-- Request creating a product with the identifier of the mug. -/
def mugAgainBody : ProductBody :=
  { id := .str "1", name := "Mug II", price := .num 12, category := "home",
    imageUrl := "mug2.png", description := "Another mug", details := some [] }

/-- Request creating product 2 with the price -5. -/
def negativePriceBody : ProductBody :=
  { id := .num 2, name := "Pen", price := .num (-5), category := "office",
    imageUrl := "pen.png", description := "A pen", details := some ["blue"] }

/-- Request creating a product with identifier "0" and price "0", both sent as
strings. -/
def zeroStringsBody : ProductBody :=
  { id := .str "0", name := "Sample", price := .str "0", category := "gift",
    imageUrl := "sample.png", description := "A free sample", details := some [] }

/-- The checkout request of user 7 with a forged total and forged items. -/
def forgedCheckout : CheckoutBody :=
  { exampleCheckout with
    grandTotal := .num (1 / 100), cartItems := [(.num 1, .num 100)] }

/-- A store whose only cart line, of user 7, names product 99, which the
catalog does not have. -/
def orphanDb : Db :=
  { users := []
    products := exampleCatalog
    cart := [{ userId := some 7, productId := some 99, qty := 3 }] }

/-- Catalog with a pen priced 1.50 and a mug priced 10.00. -/
def centsCatalog : List Product :=
  [{ _id := some 1, name := "Mug", price := 1000 / 100, category := "home",
     imageUrl := "mug.png", description := "A mug", details := [] },
   { _id := some 2, name := "Pen", price := 150 / 100, category := "office",
     imageUrl := "pen.png", description := "A pen", details := [] }]

/-- Two mugs and three pens. -/
def centsLines : List CartLine :=
  [{ userId := some 7, productId := some 1, qty := 2 },
   { userId := some 7, productId := some 2, qty := 3 }]

/-! ## Lemmas on calculateTotals -/

theorem mapLines_fst (ps : List Product) (ls : List CartLine) (s : ℚ) :
    (mapLines ps s ls).1 = s + rawSubtotal ls ps := by
  induction ls generalizing s with
  | nil => simp [mapLines, rawSubtotal]
  | cons l ls ih =>
    simp only [mapLines, ih]
    cases h : resolve ps l with
    | none => simp [mapLine, h, rawSubtotal, List.filterMap_cons]
    | some p => simp [mapLine, h, rawSubtotal, List.filterMap_cons, add_assoc]

theorem mapLines_snd (ps : List Product) (ls : List CartLine) (s : ℚ) :
    (mapLines ps s ls).2 = ls.map fun l => (resolve ps l).map fun p =>
      ({ productId := l.productId, name := p.name, price := p.price, qty := l.qty,
         imageUrl := p.imageUrl, lineTotal := round2 (l.qty * p.price) } : CartItem) := by
  induction ls generalizing s with
  | nil => simp [mapLines]
  | cons l ls ih =>
    simp only [mapLines, ih, List.map_cons]
    cases h : resolve ps l <;> simp [mapLine, h]

theorem resolvable_iff (ps : List Product) (l : CartLine) :
    resolvable ps l = (resolve ps l).isSome := by
  unfold resolvable resolve
  induction ps with
  | nil => rfl
  | cons p ps ih =>
    cases h : strictEq p._id l.productId <;> simp [List.find?_cons, h, ih]

theorem calculateTotals_items (ls : List CartLine) (ps : List Product) :
    (calculateTotals ls ps).items = ls.filterMap fun l => (resolve ps l).map fun p =>
      ({ productId := l.productId, name := p.name, price := p.price, qty := l.qty,
         imageUrl := p.imageUrl, lineTotal := round2 (l.qty * p.price) } : CartItem) := by
  simp only [calculateTotals, mapLines_snd]
  induction ls with
  | nil => rfl
  | cons l ls ih => cases h : resolve ps l <;> simp [List.filterMap_cons, h, ih]

theorem rawSubtotal_filter (ls : List CartLine) (ps : List Product) :
    rawSubtotal (ls.filter (resolvable ps)) ps = rawSubtotal ls ps := by
  unfold rawSubtotal
  induction ls with
  | nil => rfl
  | cons l ls ih =>
    cases h : resolve ps l with
    | none =>
      have hr : resolvable ps l = false := by rw [resolvable_iff, h]; rfl
      simp only [List.filter_cons, hr, List.filterMap_cons, h, Option.map_none']
      simpa using ih
    | some p =>
      have hr : resolvable ps l = true := by rw [resolvable_iff, h]; rfl
      simp only [List.filter_cons, hr, List.filterMap_cons, h, Option.map_some', if_true,
        List.sum_cons, ih]

theorem calculateTotals_subtotal (ls : List CartLine) (ps : List Product) :
    (calculateTotals ls ps).subtotal = round2 (rawSubtotal ls ps) := by
  simp [calculateTotals, mapLines_fst]

theorem calculateTotals_tax (ls : List CartLine) (ps : List Product) :
    (calculateTotals ls ps).tax = round2 (rawSubtotal ls ps * (8 / 100)) := by
  simp [calculateTotals, mapLines_fst, TAX_RATE]

theorem calculateTotals_grandTotal (ls : List CartLine) (ps : List Product) :
    (calculateTotals ls ps).grandTotal =
      round2 (rawSubtotal ls ps + rawSubtotal ls ps * (8 / 100) + 15) := by
  simp [calculateTotals, mapLines_fst, TAX_RATE, SHIPPING_COST]

/-! ## Lemmas on rounding -/

theorem round2_eq_floor (x : ℚ) (h : ∀ m : ℤ, x * 100 + 1 / 2 ≠ (m : ℚ)) :
    round2 x = ((⌊x * 100 + 1 / 2⌋ : ℤ) : ℚ) / 100 := by
  unfold round2
  by_cases hx : x < 0
  · have hfl : ⌊|x| * 100 + 1 / 2⌋ = -⌊x * 100 + 1 / 2⌋ := by
      rw [abs_of_neg hx, Int.floor_eq_iff]
      have h1 := Int.floor_le (x * 100 + 1 / 2)
      have h2 := Int.lt_floor_add_one (x * 100 + 1 / 2)
      have h3 : ((⌊x * 100 + 1 / 2⌋ : ℤ) : ℚ) ≠ x * 100 + 1 / 2 := fun e => h _ e.symm
      have h4 : ((⌊x * 100 + 1 / 2⌋ : ℤ) : ℚ) < x * 100 + 1 / 2 := lt_of_le_of_ne h1 h3
      push_cast
      constructor <;> linarith
    simp only [hx, if_true, hfl]
    push_cast
    ring
  · have hx0 : 0 ≤ x := not_lt.mp hx
    simp only [hx, if_false, abs_of_nonneg hx0]

theorem round2_cents (c : ℤ) : round2 ((c : ℚ) / 100) = (c : ℚ) / 100 := by
  rw [round2_eq_floor]
  · have : ⌊(c : ℚ) / 100 * 100 + 1 / 2⌋ = c := by
      rw [Int.floor_eq_iff]
      constructor <;> linarith
    rw [this]
  · intro m hm
    have h2 : ((2 * c + 1 : ℤ) : ℚ) = ((2 * m : ℤ) : ℚ) := by push_cast; linarith
    have h3 : 2 * c + 1 = 2 * m := by exact_mod_cast h2
    omega

theorem tax_not_tie (c k m : ℤ) :
    ((c : ℚ) / 100 * (8 / 100) + (k : ℚ) / 100) * 100 + 1 / 2 ≠ (m : ℚ) := by
  intro hm
  have h2 : ((4 * c + 50 * k + 25 : ℤ) : ℚ) = ((50 * m : ℤ) : ℚ) := by push_cast; linarith
  have h3 : 4 * c + 50 * k + 25 = 50 * m := by exact_mod_cast h2
  omega

theorem round2_add_cents (c k : ℤ) :
    round2 ((c : ℚ) / 100 * (8 / 100) + (k : ℚ) / 100) =
      round2 ((c : ℚ) / 100 * (8 / 100)) + (k : ℚ) / 100 := by
  have h0 : (c : ℚ) / 100 * (8 / 100) = (c : ℚ) / 100 * (8 / 100) + ((0 : ℤ) : ℚ) / 100 := by simp
  rw [round2_eq_floor _ (tax_not_tie c k), round2_eq_floor _ (by
    intro m; rw [h0]; exact tax_not_tie c 0 m)]
  have e : ((c : ℚ) / 100 * (8 / 100) + (k : ℚ) / 100) * 100 + 1 / 2 =
      ((c : ℚ) / 100 * (8 / 100) * 100 + 1 / 2) + (k : ℚ) := by ring
  rw [e, Int.floor_add_int]
  push_cast
  ring

/-! ## Claims on calculateTotals -/

/-- C1 (as stated) fails: with one unit of a product priced 1.054 the view has
subtotal 1.05, tax 0.08, shipping 15 and grandTotal 16.14, which is not
1.05 + 0.08 + 15; with one unit of a product priced 0.0625 the view has
subtotal 0.06 and tax 0.01, which is not round2 (0.06 × 0.08) = 0. -/
theorem totals_identity_counterexample :
    ((calculateTotals singleLine milliCatalog).subtotal = 105 / 100 ∧
      (calculateTotals singleLine milliCatalog).tax = 8 / 100 ∧
      (calculateTotals singleLine milliCatalog).shipping = 15 ∧
      (calculateTotals singleLine milliCatalog).grandTotal = 1614 / 100 ∧
      (calculateTotals singleLine milliCatalog).grandTotal ≠
        (calculateTotals singleLine milliCatalog).subtotal +
          (calculateTotals singleLine milliCatalog).tax +
          (calculateTotals singleLine milliCatalog).shipping) ∧
    ((calculateTotals singleLine sixteenthCatalog).subtotal = 6 / 100 ∧
      (calculateTotals singleLine sixteenthCatalog).tax = 1 / 100 ∧
      (calculateTotals singleLine sixteenthCatalog).tax ≠
        round2 ((calculateTotals singleLine sixteenthCatalog).subtotal * (8 / 100))) := by
  decide!

/-- C1 (amended): for every cart and catalog the view has shipping 15.00 (also
for the empty cart), tax = round2 (S × 0.08) and
grandTotal = round2 (S + S × 0.08 + 15), where S is the unrounded subtotal; and
whenever S is a whole number of cents the returned subtotal is S itself, so that
grandTotal = subtotal + tax + shipping and tax = round2 (subtotal × 0.08) hold
on the returned fields. -/
theorem calculateTotals_returned_fields (ls : List CartLine) (ps : List Product) :
    (calculateTotals ls ps).shipping = 15 ∧
    (calculateTotals [] ps).shipping = 15 ∧
    (calculateTotals ls ps).tax = round2 (rawSubtotal ls ps * (8 / 100)) ∧
    (calculateTotals ls ps).grandTotal =
      round2 (rawSubtotal ls ps + rawSubtotal ls ps * (8 / 100) + 15) ∧
    ((∃ c : ℤ, rawSubtotal ls ps = (c : ℚ) / 100) →
      (calculateTotals ls ps).subtotal = rawSubtotal ls ps ∧
      (calculateTotals ls ps).grandTotal =
        (calculateTotals ls ps).subtotal + (calculateTotals ls ps).tax +
          (calculateTotals ls ps).shipping ∧
      (calculateTotals ls ps).tax = round2 ((calculateTotals ls ps).subtotal * (8 / 100))) := by
  refine ⟨rfl, rfl, calculateTotals_tax ls ps, calculateTotals_grandTotal ls ps, ?_⟩
  rintro ⟨c, hc⟩
  have hs : (calculateTotals ls ps).subtotal = rawSubtotal ls ps := by
    rw [calculateTotals_subtotal, hc, round2_cents]
  refine ⟨hs, ?_, ?_⟩
  · rw [hs, calculateTotals_grandTotal, calculateTotals_tax, hc]
    have e : (c : ℚ) / 100 + (c : ℚ) / 100 * (8 / 100) + 15 =
        (c : ℚ) / 100 * (8 / 100) + ((c + 1500 : ℤ) : ℚ) / 100 := by push_cast; ring
    rw [e, round2_add_cents]
    show _ = _ + _ + SHIPPING_COST
    unfold SHIPPING_COST
    push_cast
    ring
  · rw [hs, calculateTotals_tax]

/-- Worked example of C1: two units of a product priced 10.00 give subtotal
20.00, tax 1.60, shipping 15.00 and grandTotal 36.60, and the returned fields
add up. -/
theorem calculateTotals_returned_fields_witness :
    (calculateTotals exampleLines exampleCatalog).subtotal = 20 ∧
    (calculateTotals exampleLines exampleCatalog).tax = 160 / 100 ∧
    (calculateTotals exampleLines exampleCatalog).shipping = 15 ∧
    (calculateTotals exampleLines exampleCatalog).grandTotal = 3660 / 100 ∧
    (calculateTotals exampleLines exampleCatalog).grandTotal =
      (calculateTotals exampleLines exampleCatalog).subtotal +
        (calculateTotals exampleLines exampleCatalog).tax +
        (calculateTotals exampleLines exampleCatalog).shipping ∧
    (calculateTotals exampleLines exampleCatalog).tax =
      round2 ((calculateTotals exampleLines exampleCatalog).subtotal * (8 / 100)) :=
  ⟨by decide!, by decide!, by decide!, by decide!,
    ((calculateTotals_returned_fields exampleLines exampleCatalog).2.2.2.2
      ⟨2000, by decide!⟩).2⟩

/-- The items of the view depend on the lines that resolve only. -/
theorem items_filter_resolvable (ls : List CartLine) (ps : List Product) :
    (calculateTotals (ls.filter (resolvable ps)) ps).items = (calculateTotals ls ps).items := by
  simp only [calculateTotals_items]
  induction ls with
  | nil => rfl
  | cons l ls ih =>
    cases h : resolve ps l with
    | none =>
      have hr : resolvable ps l = false := by rw [resolvable_iff, h]; rfl
      simp [List.filter_cons, hr, List.filterMap_cons, h, ih]
    | some p =>
      have hr : resolvable ps l = true := by rw [resolvable_iff, h]; rfl
      simp [List.filter_cons, hr, List.filterMap_cons, h, ih]

theorem calculateTotals_ext (v w : CartView) (h1 : v.items = w.items)
    (h2 : v.subtotal = w.subtotal) (h3 : v.shipping = w.shipping) (h4 : v.tax = w.tax)
    (h5 : v.grandTotal = w.grandTotal) : v = w := by
  cases v; cases w; simp_all

/-- C2: the items of calculateTotals are the input lines whose productId is
strictly equal to the _id of some catalog product, one item per such line and in
the order of the input; the lines that do not resolve produce no item and
change nothing in the view (calculateTotals is total, so they raise no error):
dropping them from the input leaves items, subtotal, tax and grandTotal as they
are. -/
theorem calculateTotals_keeps_resolvable (ls : List CartLine) (ps : List Product) :
    (calculateTotals ls ps).items.map (fun i => (i.productId, i.qty)) =
      (ls.filter (resolvable ps)).map (fun l => (l.productId, l.qty)) ∧
    calculateTotals (ls.filter (resolvable ps)) ps = calculateTotals ls ps := by
  constructor
  · rw [calculateTotals_items]
    induction ls with
    | nil => rfl
    | cons l ls ih =>
      cases h : resolve ps l with
      | none =>
        have hr : resolvable ps l = false := by rw [resolvable_iff, h]; rfl
        simpa [List.filter_cons, hr, List.filterMap_cons, h] using ih
      | some p =>
        have hr : resolvable ps l = true := by rw [resolvable_iff, h]; rfl
        simpa [List.filter_cons, hr, List.filterMap_cons, h] using ih
  · apply calculateTotals_ext
    · exact items_filter_resolvable ls ps
    · rw [calculateTotals_subtotal, calculateTotals_subtotal, rawSubtotal_filter]
    · rfl
    · rw [calculateTotals_tax, calculateTotals_tax, rawSubtotal_filter]
    · rw [calculateTotals_grandTotal, calculateTotals_grandTotal, rawSubtotal_filter]

/-- C3: the items of calculateTotals are, in order, one item per line that
resolves; the item has productId and qty of the line, name, price and imageUrl
of the first catalog product whose _id is strictly equal to the productId of the
line, and lineTotal = round2 (qty × price). -/
theorem calculateTotals_item_fields (ls : List CartLine) (ps : List Product) :
    (calculateTotals ls ps).items =
      ls.filterMap fun l =>
        (ps.find? fun p => strictEq p._id l.productId).map fun p =>
          ({ productId := l.productId
             name := p.name
             price := p.price
             qty := l.qty
             imageUrl := p.imageUrl
             lineTotal := round2 (l.qty * p.price) } : CartItem) :=
  calculateTotals_items ls ps

/-- C4: the returned subtotal is round2 of the sum, over the lines that
resolve, of the unrounded products qty × price; tax and grandTotal are computed
from that unrounded sum and rounded once each; and the subtotal is not the sum
of the rounded lineTotals: for one unit each of products priced 1.004 and 2.004
the lineTotals are 1.00 and 2.00 and the subtotal is 3.01. -/
theorem calculateTotals_rounds_once :
    (∀ (ls : List CartLine) (ps : List Product),
      (calculateTotals ls ps).subtotal =
        round2 (ls.filterMap fun l =>
          (ps.find? fun p => strictEq p._id l.productId).map fun p => l.qty * p.price).sum ∧
      (calculateTotals ls ps).tax =
        round2 ((ls.filterMap fun l =>
          (ps.find? fun p => strictEq p._id l.productId).map fun p => l.qty * p.price).sum *
            (8 / 100)) ∧
      (calculateTotals ls ps).grandTotal =
        round2 ((ls.filterMap fun l =>
          (ps.find? fun p => strictEq p._id l.productId).map fun p => l.qty * p.price).sum +
          (ls.filterMap fun l =>
            (ps.find? fun p => strictEq p._id l.productId).map fun p => l.qty * p.price).sum *
            (8 / 100) + 15)) ∧
    (calculateTotals twoLines fractionCatalog).items.map (fun i => i.lineTotal) = [1, 2] ∧
    (calculateTotals twoLines fractionCatalog).subtotal = 301 / 100 ∧
    (calculateTotals twoLines fractionCatalog).subtotal ≠
      ((calculateTotals twoLines fractionCatalog).items.map (fun i => i.lineTotal)).sum := by
  refine ⟨fun ls ps => ⟨calculateTotals_subtotal ls ps, calculateTotals_tax ls ps,
    calculateTotals_grandTotal ls ps⟩, by decide!, by decide!, by decide!⟩

/-! ## Lemmas on the cart collection -/

theorem matchesLine_iff (u p : IntOrNaN) (l : CartLine) :
    matchesLine u p l = true ↔ lineKey l = (u, p) := by
  simp [matchesLine, lineKey, Prod.ext_iff]

theorem uniqueLines_deleteOne (cart : List CartLine) (u p : IntOrNaN)
    (h : UniqueLines cart) : UniqueLines (cartDeleteOne cart u p) :=
  List.Nodup.sublist ((List.eraseP_sublist cart).map lineKey) h

theorem uniqueLines_deleteMany (cart : List CartLine) (u : IntOrNaN)
    (h : UniqueLines cart) : UniqueLines (cartDeleteMany cart u) :=
  List.Nodup.sublist ((List.filter_sublist cart).map lineKey) h

theorem keys_updateOne (u p : IntOrNaN) (q : ℚ) (cart : List CartLine) :
    (cartUpdateOne u p q cart).map lineKey =
      if cart.any (matchesLine u p) then cart.map lineKey else cart.map lineKey ++ [(u, p)] := by
  induction cart with
  | nil => simp [cartUpdateOne, lineKey]
  | cons l ls ih =>
    cases h : matchesLine u p l with
    | true => simp [cartUpdateOne, h, lineKey]
    | false =>
      simp only [cartUpdateOne, h, Bool.false_eq_true, ↓reduceIte, List.map_cons, ih,
        List.any_cons, Bool.false_or]
      split <;> rfl

theorem uniqueLines_updateOne (u p : IntOrNaN) (q : ℚ) (cart : List CartLine)
    (h : UniqueLines cart) : UniqueLines (cartUpdateOne u p q cart) := by
  unfold UniqueLines at *
  rw [keys_updateOne]
  split
  · exact h
  · rename_i hno
    rw [List.nodup_append]
    refine ⟨h, List.nodup_singleton _, ?_⟩
    intro k hk hk2
    rw [List.mem_singleton] at hk2
    subst hk2
    apply hno
    rw [List.any_eq_true]
    obtain ⟨l, hl, hkey⟩ := List.mem_map.mp hk
    exact ⟨l, hl, (matchesLine_iff u p l).mpr hkey⟩

theorem linesFor_eq_nil_of_not_any (cart : List CartLine) (u p : IntOrNaN)
    (h : cart.any (matchesLine u p) = false) : linesFor cart u p = [] := by
  unfold linesFor
  rw [List.filter_eq_nil_iff]
  intro l hl hm
  have : cart.any (matchesLine u p) = true := List.any_eq_true.mpr ⟨l, hl, hm⟩
  rw [h] at this
  exact Bool.noConfusion this

theorem any_eq_false_of_linesFor (cart : List CartLine) (u p : IntOrNaN)
    (h : linesFor cart u p = []) : cart.any (matchesLine u p) = false := by
  unfold linesFor at h
  rw [List.filter_eq_nil_iff] at h
  cases hany : cart.any (matchesLine u p) with
  | false => rfl
  | true =>
    obtain ⟨l, hl, hm⟩ := List.any_eq_true.mp hany
    exact absurd hm (h l hl)

/-- In a collection with unique keys nothing after a matching document matches. -/
theorem tail_no_match (u p : IntOrNaN) (l : CartLine) (ls : List CartLine)
    (h : UniqueLines (l :: ls)) (hm : matchesLine u p l = true) :
    ls.any (matchesLine u p) = false := by
  cases hany : ls.any (matchesLine u p) with
  | false => rfl
  | true =>
    obtain ⟨x, hx, hxm⟩ := List.any_eq_true.mp hany
    unfold UniqueLines at h
    rw [List.map_cons, List.nodup_cons] at h
    exfalso
    apply h.1
    rw [(matchesLine_iff u p l).mp hm, ← (matchesLine_iff u p x).mp hxm]
    exact List.mem_map_of_mem lineKey hx

theorem linesFor_updateOne (u p : IntOrNaN) (q : ℚ) (cart : List CartLine)
    (h : UniqueLines cart) :
    linesFor (cartUpdateOne u p q cart) u p = [{ userId := u, productId := p, qty := q }] := by
  induction cart with
  | nil => simp [cartUpdateOne, linesFor, matchesLine]
  | cons l ls ih =>
    cases hm : matchesLine u p l with
    | true =>
      have htail := linesFor_eq_nil_of_not_any ls u p (tail_no_match u p l ls h hm)
      have hk := (matchesLine_iff u p l).mp hm
      simp only [lineKey, Prod.mk.injEq] at hk
      have hm2 : matchesLine u p { l with qty := q } = true := by
        simpa [matchesLine] using hk
      unfold linesFor at htail ⊢
      simp only [cartUpdateOne, hm, if_true, List.filter_cons, hm2, htail]
      cases l
      simp only at hk
      simp [hk.1, hk.2]
    | false =>
      have hls : UniqueLines ls := by
        unfold UniqueLines at h ⊢
        rw [List.map_cons, List.nodup_cons] at h
        exact h.2
      have := ih hls
      unfold linesFor at this ⊢
      simp only [cartUpdateOne, hm, Bool.false_eq_true, ↓reduceIte, List.filter_cons]
      exact this

theorem linesFor_deleteOne (u p : IntOrNaN) (cart : List CartLine)
    (h : UniqueLines cart) : linesFor (cartDeleteOne cart u p) u p = [] := by
  induction cart with
  | nil => rfl
  | cons l ls ih =>
    cases hm : matchesLine u p l with
    | true =>
      have htail := linesFor_eq_nil_of_not_any ls u p (tail_no_match u p l ls h hm)
      simpa [cartDeleteOne, List.eraseP_cons, hm] using htail
    | false =>
      have hls : UniqueLines ls := by
        unfold UniqueLines at h ⊢
        rw [List.map_cons, List.nodup_cons] at h
        exact h.2
      have := ih hls
      unfold linesFor cartDeleteOne at this ⊢
      simp only [List.eraseP_cons, hm, cond_false, Bool.false_eq_true, ↓reduceIte,
        List.filter_cons]
      exact this

theorem cartUpdateOne_twice (u p : IntOrNaN) (q1 q2 : ℚ) (cart : List CartLine) :
    cartUpdateOne u p q2 (cartUpdateOne u p q1 cart) = cartUpdateOne u p q2 cart := by
  induction cart with
  | nil => simp [cartUpdateOne, matchesLine]
  | cons l ls ih =>
    cases hm : matchesLine u p l with
    | true =>
      have hm2 : matchesLine u p { l with qty := q1 } = true := by
        simpa [matchesLine] using hm
      simp [cartUpdateOne, hm, hm2]
    | false => simp [cartUpdateOne, hm, ih]

theorem cartDeleteOne_of_no_line (u p : IntOrNaN) (cart : List CartLine)
    (h : linesFor cart u p = []) : cartDeleteOne cart u p = cart := by
  unfold cartDeleteOne
  apply List.eraseP_of_forall_not
  intro l hl hm
  unfold linesFor at h
  rw [List.filter_eq_nil_iff] at h
  exact h l hl hm

theorem productsFindOne_isSome (ps : List Product) (id : IntOrNaN)
    (h : ∃ prod ∈ ps, prod._id = id) : ∃ prod, productsFindOne ps id = some prod := by
  obtain ⟨prod, hmem, hid⟩ := h
  have : (productsFindOne ps id).isSome = true := by
    unfold productsFindOne
    rw [List.find?_isSome]
    exact ⟨prod, hmem, by simpa using hid⟩
  exact Option.isSome_iff_exists.mp this

/-! ## Lemmas on the handlers -/

theorem uniqueLines_postCart (db : Db) (body : CartBody) (h : UniqueLines db.cart) :
    UniqueLines (postCart db body).db.cart := by
  unfold postCart
  dsimp only
  repeat' split
  all_goals first
    | exact h
    | exact uniqueLines_deleteOne _ _ _ h
    | exact uniqueLines_updateOne _ _ _ _ h

theorem uniqueLines_deleteCart (db : Db) (id : String) (userId : JVal)
    (h : UniqueLines db.cart) : UniqueLines (deleteCart db id userId).db.cart := by
  unfold deleteCart
  dsimp only
  split
  · exact h
  · split <;> exact uniqueLines_deleteOne _ _ _ h

theorem uniqueLines_checkout (db : Db) (body : CheckoutBody) (random : ℚ) (timestamp : String)
    (h : UniqueLines db.cart) : UniqueLines (checkout db body random timestamp).db.cart := by
  unfold checkout
  dsimp only
  split
  · exact h
  · split
    · exact h
    · exact uniqueLines_deleteMany _ _ h

theorem postCart_ok (db : Db) (userId productId : JVal) (q : ℚ)
    (hu : truthy userId = true) (hq : 0 ≤ q)
    (hp : ∃ prod ∈ db.products, prod._id = parseInt productId) :
    postCart db ⟨userId, productId, .num q⟩ =
      { response := ⟨200, .view (calculateTotals
          (cartFind (cartAfterUpsert db.cart (parseInt userId) (parseInt productId) q)
            (parseInt userId)) db.products)⟩
        db := { db with
          cart := cartAfterUpsert db.cart (parseInt userId) (parseInt productId) q }
        calls := [.productsFindOne (parseInt productId),
          if q = 0 then .cartDeleteOne (parseInt userId) (parseInt productId)
          else .cartUpdateOne (parseInt userId) (parseInt productId) q,
          .cartFind (parseInt userId), .productsFind] } := by
  obtain ⟨prod, hprod⟩ := productsFindOne_isSome db.products (parseInt productId) hp
  have hq2 : ¬ q < 0 := not_lt.mpr hq
  unfold postCart cartAfterUpsert
  simp only [hu, hq2, hprod, Bool.not_true, decide_False, Bool.or_self, Bool.false_eq_true,
    ↓reduceIte]
  by_cases h0 : q = 0 <;> simp [h0]

theorem uniqueLines_cons (l : CartLine) (ls : List CartLine) :
    UniqueLines (l :: ls) ↔ lineKey l ∉ ls.map lineKey ∧ UniqueLines ls := by
  unfold UniqueLines
  rw [List.map_cons, List.nodup_cons]

theorem uniqueLines_iff (cart : List CartLine) :
    UniqueLines cart ↔ ∀ u p, (linesFor cart u p).length ≤ 1 := by
  induction cart with
  | nil => exact ⟨fun _ _ _ => Nat.zero_le _, fun _ => List.nodup_nil⟩
  | cons l ls ih =>
    constructor
    · intro h u p
      cases hm : matchesLine u p l with
      | true =>
        have htail := linesFor_eq_nil_of_not_any ls u p (tail_no_match u p l ls h hm)
        unfold linesFor at htail ⊢
        simp [List.filter_cons, hm, htail]
      | false =>
        have := ih.mp ((uniqueLines_cons l ls).mp h).2 u p
        unfold linesFor at this ⊢
        simpa [List.filter_cons, hm] using this
    · intro h
      rw [uniqueLines_cons]
      constructor
      · intro hmem
        obtain ⟨x, hx, hkey⟩ := List.mem_map.mp hmem
        have hl : matchesLine l.userId l.productId l = true := (matchesLine_iff _ _ _).mpr rfl
        have hxm : matchesLine l.userId l.productId x = true := (matchesLine_iff _ _ _).mpr hkey
        have hlen := h l.userId l.productId
        have hxin : x ∈ linesFor ls l.userId l.productId := List.mem_filter.mpr ⟨hx, hxm⟩
        have hpos : 0 < (linesFor ls l.userId l.productId).length :=
          List.length_pos_of_mem hxin
        unfold linesFor at hlen hpos
        simp only [List.filter_cons, hl, if_true, List.length_cons] at hlen
        omega
      · apply ih.mpr
        intro u p
        have hlen := h u p
        unfold linesFor at hlen ⊢
        rw [List.filter_cons] at hlen
        split at hlen
        · simp only [List.length_cons] at hlen
          omega
        · exact hlen

theorem postCart_ok_db (db : Db) (userId productId : JVal) (q : ℚ)
    (hu : truthy userId = true) (hq : 0 ≤ q)
    (hp : ∃ prod ∈ db.products, prod._id = parseInt productId) :
    (postCart db ⟨userId, productId, .num q⟩).db =
      { db with cart := cartAfterUpsert db.cart (parseInt userId) (parseInt productId) q } := by
  rw [postCart_ok db userId productId q hu hq hp]

theorem getCart_ok (db : Db) (userId : JVal) (hu : truthy userId = true) :
    getCart db userId =
      { response := ⟨200, .view (calculateTotals (cartFind db.cart (parseInt userId)) db.products)⟩
        db := db
        calls := [.cartFind (parseInt userId), .productsFind] } := by
  simp [getCart, hu]

/-! ## Claims on the cart store -/

/-- C5: if the cart collection holds at most one line per (userId, productId),
it still does after any POST /api/cart (upsert), any DELETE /api/cart/:id
(remove) and any checkout; and after two successful upserts of the same user and
product with positive quantities the collection holds exactly one line for that
pair. -/
theorem uniqueLines_preserved (db : Db) (h : UniqueLines db.cart) :
    (∀ body, UniqueLines (postCart db body).db.cart) ∧
    (∀ id userId, UniqueLines (deleteCart db id userId).db.cart) ∧
    (∀ body random timestamp, UniqueLines (checkout db body random timestamp).db.cart) ∧
    (∀ userId productId q1 q2, truthy userId = true →
      (∃ prod ∈ db.products, prod._id = parseInt productId) → 0 < q1 → 0 < q2 →
      (linesFor (postCart (postCart db ⟨userId, productId, .num q1⟩).db
        ⟨userId, productId, .num q2⟩).db.cart (parseInt userId) (parseInt productId)).length
        = 1) := by
  refine ⟨fun body => uniqueLines_postCart db body h,
    fun id userId => uniqueLines_deleteCart db id userId h,
    fun body random timestamp => uniqueLines_checkout db body random timestamp h, ?_⟩
  intro userId productId q1 q2 hu hp hq1 hq2
  have h1 := uniqueLines_postCart db ⟨userId, productId, .num q1⟩ h
  rw [postCart_ok_db db userId productId q1 hu hq1.le hp] at h1 ⊢
  generalize cartAfterUpsert db.cart (parseInt userId) (parseInt productId) q1 = c1 at h1 ⊢
  rw [postCart_ok_db { users := db.users, products := db.products, cart := c1 } userId productId
    q2 hu hq2.le hp]
  simp only [cartAfterUpsert, hq2.ne.symm, if_false]
  rw [linesFor_updateOne _ _ _ _ h1]
  rfl

/-- Instance of C5 on the example store: upserting product 1 for user 7 with
quantity 3 and then 5 leaves one line for the pair. -/
theorem uniqueLines_preserved_witness :
    UniqueLines exampleDb.cart ∧
    UniqueLines (postCart exampleDb ⟨.str "7", .num 1, .num 3⟩).db.cart ∧
    UniqueLines (deleteCart exampleDb "1" (.str "8")).db.cart ∧
    UniqueLines (checkout exampleDb ⟨.str "Ann", .str "ann@example.org", .num 0, [], .str "7"⟩
      (1 / 2) "2025-01-01T00:00:00.000Z").db.cart ∧
    (linesFor (postCart (postCart exampleDb ⟨.str "7", .num 1, .num 3⟩).db
      ⟨.str "7", .num 1, .num 5⟩).db.cart (parseInt (.str "7")) (parseInt (.num 1))).length
      = 1 :=
  ⟨by decide,
    (uniqueLines_preserved exampleDb (by decide)).1 _,
    (uniqueLines_preserved exampleDb (by decide)).2.1 _ _,
    (uniqueLines_preserved exampleDb (by decide)).2.2.1 _ _ _,
    (uniqueLines_preserved exampleDb (by decide)).2.2.2 (.str "7") (.num 1) 3 5 (by decide)
      ⟨_, List.mem_cons_self _ _, by decide!⟩ (by norm_num) (by norm_num)⟩

/-- C6: in a store with at most one line per (userId, productId), an upsert of
a catalog product with a quantity q > 0 answers 200 and leaves exactly one line
for the pair, with quantity q, whatever was stored before; and an upsert with
any q1 > 0 followed by the upsert with q leaves the same store as the upsert
with q alone. -/
theorem postCart_replaces (db : Db) (userId productId : JVal) (q : ℚ)
    (h : UniqueLines db.cart) (hu : truthy userId = true)
    (hp : ∃ prod ∈ db.products, prod._id = parseInt productId) (hq : 0 < q) :
    (postCart db ⟨userId, productId, .num q⟩).response.status = 200 ∧
    linesFor (postCart db ⟨userId, productId, .num q⟩).db.cart (parseInt userId)
      (parseInt productId) =
        [{ userId := parseInt userId, productId := parseInt productId, qty := q }] ∧
    ∀ q1, 0 < q1 →
      (postCart (postCart db ⟨userId, productId, .num q1⟩).db ⟨userId, productId, .num q⟩).db =
        (postCart db ⟨userId, productId, .num q⟩).db := by
  refine ⟨?_, ?_, ?_⟩
  · rw [postCart_ok db userId productId q hu hq.le hp]
  · rw [postCart_ok db userId productId q hu hq.le hp]
    simp only [cartAfterUpsert, hq.ne.symm, if_false]
    exact linesFor_updateOne _ _ _ _ h
  · intro q1 hq1
    rw [postCart_ok_db db userId productId q1 hu hq1.le hp,
      postCart_ok_db db userId productId q hu hq.le hp]
    have e1 : cartAfterUpsert db.cart (parseInt userId) (parseInt productId) q1 =
        cartUpdateOne (parseInt userId) (parseInt productId) q1 db.cart := by
      simp only [cartAfterUpsert, hq1.ne.symm, if_false]
    rw [e1]
    generalize hc : cartUpdateOne (parseInt userId) (parseInt productId) q1 db.cart = c1
    rw [postCart_ok_db { users := db.users, products := db.products, cart := c1 } userId productId
      q hu hq.le hp]
    simp only [cartAfterUpsert, hq.ne.symm, if_false, ← hc, cartUpdateOne_twice]

/-- Instance of C6 on the example store: user 7 holds 2 units of product 1 and
upserts quantity 5. -/
theorem postCart_replaces_witness :
    (postCart exampleDb ⟨.str "7", .num 1, .num 5⟩).response.status = 200 ∧
    linesFor (postCart exampleDb ⟨.str "7", .num 1, .num 5⟩).db.cart (parseInt (.str "7"))
      (parseInt (.num 1)) =
        [{ userId := parseInt (.str "7"), productId := parseInt (.num 1), qty := 5 }] ∧
    (postCart (postCart exampleDb ⟨.str "7", .num 1, .num 3⟩).db ⟨.str "7", .num 1, .num 5⟩).db =
      (postCart exampleDb ⟨.str "7", .num 1, .num 5⟩).db :=
  have w := postCart_replaces exampleDb (.str "7") (.num 1) 5 (by decide) (by decide)
    ⟨_, List.mem_cons_self _ _, by decide!⟩ (by norm_num)
  ⟨w.1, w.2.1, w.2.2 3 (by norm_num)⟩

theorem item_of_mem (ls : List CartLine) (ps : List Product) (i : CartItem)
    (hi : i ∈ (calculateTotals ls ps).items) :
    ∃ l ∈ ls, i.productId = l.productId ∧ i.qty = l.qty := by
  rw [calculateTotals_items, List.mem_filterMap] at hi
  obtain ⟨l, hl, hmap⟩ := hi
  cases hr : resolve ps l with
  | none => simp [hr] at hmap
  | some p =>
    simp only [hr, Option.map_some', Option.some.injEq] at hmap
    exact ⟨l, hl, by rw [← hmap], by rw [← hmap]⟩

theorem mem_cartUpdateOne (u p : IntOrNaN) (q : ℚ) (cart : List CartLine) (l : CartLine)
    (hl : l ∈ cartUpdateOne u p q cart) : l ∈ cart ∨ l.qty = q := by
  induction cart with
  | nil =>
    simp only [cartUpdateOne, List.mem_singleton] at hl
    right; rw [hl]
  | cons x xs ih =>
    cases hm : matchesLine u p x with
    | true =>
      simp only [cartUpdateOne, hm, if_true, List.mem_cons] at hl
      rcases hl with hl | hl
      · right; rw [hl]
      · left; exact List.mem_cons_of_mem _ hl
    | false =>
      simp only [cartUpdateOne, hm, Bool.false_eq_true, if_false, List.mem_cons] at hl
      rcases hl with hl | hl
      · left; rw [hl]; exact List.mem_cons_self _ _
      · rcases ih hl with h | h
        · left; exact List.mem_cons_of_mem _ h
        · right; exact h

/-- C7: when no line is stored for (u, p), an upsert of the catalog product p
with quantity 0 answers 200, leaves the store as it was, and its response is
the response of GET /api/cart for u on the store before the call (the GET may
spell the identifier of u differently, as long as parseInt reads the same
user). -/
theorem postCart_zero_absent (db : Db) (userId productId getUserId : JVal)
    (hu : truthy userId = true)
    (hp : ∃ prod ∈ db.products, prod._id = parseInt productId)
    (habs : linesFor db.cart (parseInt userId) (parseInt productId) = [])
    (hg : truthy getUserId = true) (hsame : parseInt getUserId = parseInt userId) :
    (postCart db ⟨userId, productId, .num 0⟩).response.status = 200 ∧
    (postCart db ⟨userId, productId, .num 0⟩).db = db ∧
    (postCart db ⟨userId, productId, .num 0⟩).response = (getCart db getUserId).response := by
  have hc : cartAfterUpsert db.cart (parseInt userId) (parseInt productId) 0 = db.cart := by
    simp only [cartAfterUpsert, if_true]
    exact cartDeleteOne_of_no_line _ _ _ habs
  rw [postCart_ok db userId productId 0 hu le_rfl hp, getCart_ok db getUserId hg, hc, hsame]
  exact ⟨rfl, rfl, rfl⟩

/-- Instance of C7 on the example store: user 9 has no line for product 1. -/
theorem postCart_zero_absent_witness :
    (postCart exampleDb ⟨.num 9, .num 1, .num 0⟩).response.status = 200 ∧
    (postCart exampleDb ⟨.num 9, .num 1, .num 0⟩).db = exampleDb ∧
    (postCart exampleDb ⟨.num 9, .num 1, .num 0⟩).response =
      (getCart exampleDb (.str "9")).response :=
  postCart_zero_absent exampleDb (.num 9) (.num 1) (.str "9") (by decide!)
    ⟨_, List.mem_cons_self _ _, by decide!⟩ (by decide!) (by decide) (by decide!)

/-- C8: in a store with at most one line per (userId, productId), an upsert of
a catalog product with N > 0 followed by an upsert of the same pair with 0
answers 200, leaves no line for the pair, and the view returned has no item
with that productId. -/
theorem postCart_then_zero (db : Db) (userId productId : JVal) (N : ℚ)
    (h : UniqueLines db.cart) (hu : truthy userId = true)
    (hp : ∃ prod ∈ db.products, prod._id = parseInt productId) (hN : 0 < N) :
    (postCart (postCart db ⟨userId, productId, .num N⟩).db
      ⟨userId, productId, .num 0⟩).response.status = 200 ∧
    linesFor (postCart (postCart db ⟨userId, productId, .num N⟩).db
      ⟨userId, productId, .num 0⟩).db.cart (parseInt userId) (parseInt productId) = [] ∧
    ∃ v, (postCart (postCart db ⟨userId, productId, .num N⟩).db
        ⟨userId, productId, .num 0⟩).response.body = .view v ∧
      ∀ i ∈ v.items, i.productId ≠ parseInt productId := by
  have h1 := uniqueLines_postCart db ⟨userId, productId, .num N⟩ h
  rw [postCart_ok_db db userId productId N hu hN.le hp] at h1 ⊢
  generalize cartAfterUpsert db.cart (parseInt userId) (parseInt productId) N = c1 at h1 ⊢
  rw [postCart_ok { users := db.users, products := db.products, cart := c1 } userId productId
    0 hu le_rfl hp]
  have hnone : linesFor (cartAfterUpsert c1 (parseInt userId) (parseInt productId) 0)
      (parseInt userId) (parseInt productId) = [] := by
    simp only [cartAfterUpsert, if_true]
    exact linesFor_deleteOne _ _ _ h1
  refine ⟨rfl, hnone, _, rfl, ?_⟩
  intro i hi hid
  obtain ⟨l, hl, hpid, _⟩ := item_of_mem _ _ i hi
  have hl2 := List.mem_filter.mp hl
  have hmem : l ∈ linesFor (cartAfterUpsert c1 (parseInt userId) (parseInt productId) 0)
      (parseInt userId) (parseInt productId) := by
    apply List.mem_filter.mpr
    refine ⟨hl2.1, ?_⟩
    have hu2 : l.userId = parseInt userId := by simpa using hl2.2
    simp [matchesLine, hu2, ← hpid, hid]
  rw [hnone] at hmem
  exact List.not_mem_nil _ hmem

/-- Instance of C8 on the example store: user 7 upserts product 1 with 4, then
with 0. -/
theorem postCart_then_zero_witness :
    (postCart (postCart exampleDb ⟨.str "7", .num 1, .num 4⟩).db
      ⟨.str "7", .num 1, .num 0⟩).response.status = 200 ∧
    linesFor (postCart (postCart exampleDb ⟨.str "7", .num 1, .num 4⟩).db
      ⟨.str "7", .num 1, .num 0⟩).db.cart (parseInt (.str "7")) (parseInt (.num 1)) = [] ∧
    ∃ v, (postCart (postCart exampleDb ⟨.str "7", .num 1, .num 4⟩).db
        ⟨.str "7", .num 1, .num 0⟩).response.body = .view v ∧
      ∀ i ∈ v.items, i.productId ≠ parseInt (.num 1) :=
  postCart_then_zero exampleDb (.str "7") (.num 1) 4 (by decide) (by decide)
    ⟨_, List.mem_cons_self _ _, by decide!⟩ (by norm_num)

/-- C9: a POST /api/cart whose qty is not a number (the string "2", null, ...)
or is a negative number is answered 400, the store is left as it was and no
store call is made: neither the product lookup nor a cart write. -/
theorem postCart_rejects_invalid_qty (db : Db) (body : CartBody)
    (h : isNumber body.qty = false ∨ ∃ q, body.qty = .num q ∧ q < 0) :
    (postCart db body).response.status = 400 ∧
    (postCart db body).db = db ∧
    (postCart db body).calls = [] := by
  rcases h with h | ⟨q, hq, hneg⟩
  · unfold postCart
    cases hqty : body.qty with
    | num q => rw [hqty] at h; exact Bool.noConfusion h
    | undefined => exact ⟨rfl, rfl, rfl⟩
    | null => exact ⟨rfl, rfl, rfl⟩
    | bool b => exact ⟨rfl, rfl, rfl⟩
    | str s => exact ⟨rfl, rfl, rfl⟩
  · unfold postCart
    simp only [hq, hneg, decide_True, Bool.or_true, if_true]
    exact ⟨rfl, rfl, rfl⟩

/-- Instance of C9 on the example store: qty is the string "2". -/
theorem postCart_rejects_invalid_qty_witness :
    (postCart exampleDb ⟨.str "7", .num 1, .str "2"⟩).response.status = 400 ∧
    (postCart exampleDb ⟨.str "7", .num 1, .str "2"⟩).db = exampleDb ∧
    (postCart exampleDb ⟨.str "7", .num 1, .str "2"⟩).calls = [] :=
  postCart_rejects_invalid_qty exampleDb ⟨.str "7", .num 1, .str "2"⟩ (Or.inl rfl)

/-- C10 (as stated) fails: on the example store the upsert of product 1 for
user 9 with qty 1.5 is answered 200 and a line with quantity 3/2, which is not an
integer, is stored. -/
theorem postCart_fraction_counterexample :
    (postCart exampleDb ⟨.str "9", .num 1, .num (3 / 2)⟩).response.status = 200 ∧
    (postCart exampleDb ⟨.str "9", .num 1, .num (3 / 2)⟩).db.cart =
      exampleDb.cart ++ [{ userId := some 9, productId := some 1, qty := 3 / 2 }] ∧
    Rat.isInt (3 / 2) = false := by
  decide!

/-- C10 (amended): POST /api/cart is a validation failure (400) exactly when
userId is missing or falsy, qty is not a number, or qty is negative; whether qty
is an integer is not checked.  Every line of the cart after the call is a line
that was there before or carries the quantity of the request, which is then a
positive number. -/
theorem postCart_quantity_check (db : Db) (body : CartBody) :
    ((postCart db body).response.status = 400 ↔
      (truthy body.userId = false ∨ isNumber body.qty = false ∨
        ∃ q, body.qty = .num q ∧ q < 0)) ∧
    (∀ l ∈ (postCart db body).db.cart,
      l ∈ db.cart ∨ ∃ q, body.qty = .num q ∧ 0 < q ∧ l.qty = q) := by
  unfold postCart
  cases hqty : body.qty with
  | num q =>
    dsimp only
    by_cases hu : truthy body.userId = true
    · by_cases hneg : q < 0
      · simp [hu, hneg, invalidCartBody, isNumber]
        exact fun l hl => Or.inl hl
      · cases hfind : productsFindOne db.products (parseInt body.productId) with
        | none =>
          simp [hu, hneg, isNumber]
          exact fun l hl => Or.inl hl
        | some prod =>
          by_cases h0 : q = 0
          · subst h0
            simp only [hu, hneg, isNumber, if_true]
            refine ⟨by simp, fun l hl => Or.inl ?_⟩
            exact (List.eraseP_sublist _).subset hl
          · have hpos : 0 < q := lt_of_le_of_ne (not_lt.mp hneg) (Ne.symm h0)
            simp only [hu, hneg, h0, isNumber, if_false]
            refine ⟨by simp [hpos.le], fun l hl => ?_⟩
            rcases mem_cartUpdateOne _ _ _ _ l hl with h | h
            · exact Or.inl h
            · exact Or.inr ⟨q, rfl, hpos, h⟩
    · have hu2 : truthy body.userId = false := by simpa using hu
      simp [hu2, invalidCartBody]
      exact fun l hl => Or.inl hl
  | undefined => simp [invalidCartBody, isNumber]
  | null => simp [invalidCartBody, isNumber]
  | bool b => simp [invalidCartBody, isNumber]
  | str s => simp [invalidCartBody, isNumber]

/-- Instance of C10 (amended) on the example store: the request with qty 1.5
is not a validation failure and the line it stores carries 3/2. -/
theorem postCart_quantity_check_witness :
    ({ userId := some 9, productId := some 1, qty := 3 / 2 } : CartLine) ∈
      (postCart exampleDb ⟨.str "9", .num 1, .num (3 / 2)⟩).db.cart ∧
    (({ userId := some 9, productId := some 1, qty := 3 / 2 } : CartLine) ∈ exampleDb.cart ∨
      ∃ q, JVal.num (3 / 2) = .num q ∧ 0 < q ∧ (3 / 2 : ℚ) = q) :=
  ⟨by decide!,
    (postCart_quantity_check exampleDb ⟨.str "9", .num 1, .num (3 / 2)⟩).2 _ (by decide!)⟩

/-! ## Further lemmas on the handlers -/

theorem productsFindOne_eq_none_iff (ps : List Product) (id : IntOrNaN) :
    productsFindOne ps id = none ↔ ¬ ∃ prod ∈ ps, prod._id = id := by
  unfold productsFindOne
  rw [List.find?_eq_none]
  constructor
  · rintro h ⟨prod, hmem, hid⟩
    exact h prod hmem (by simpa using hid)
  · intro h prod hmem hid
    exact h ⟨prod, hmem, by simpa using hid⟩

theorem postCart_not_found (db : Db) (userId productId : JVal) (q : ℚ)
    (hu : truthy userId = true) (hq : 0 ≤ q)
    (hp : ¬ ∃ prod ∈ db.products, prod._id = parseInt productId) :
    postCart db ⟨userId, productId, .num q⟩ =
      { response := ⟨404, .message "Product not found."⟩
        db := db
        calls := [.productsFindOne (parseInt productId)] } := by
  have hnone := (productsFindOne_eq_none_iff db.products (parseInt productId)).mpr hp
  have hq2 : ¬ q < 0 := not_lt.mpr hq
  unfold postCart
  simp only [hu, hq2, hnone, Bool.not_true, decide_False, Bool.or_self, Bool.false_eq_true,
    ↓reduceIte]

/-- C11: for an upsert that passes the input validation (userId truthy, qty a
number ≥ 0) the answer is 404 exactly when no catalog product has the _id
parseInt(productId); in that case the store is left as it was and the only
store call made is the product lookup. -/
theorem postCart_not_found_iff (db : Db) (userId productId : JVal) (q : ℚ)
    (hu : truthy userId = true) (hq : 0 ≤ q) :
    ((postCart db ⟨userId, productId, .num q⟩).response.status = 404 ↔
      ¬ ∃ prod ∈ db.products, prod._id = parseInt productId) ∧
    ((postCart db ⟨userId, productId, .num q⟩).response.status = 404 →
      (postCart db ⟨userId, productId, .num q⟩).db = db ∧
      (postCart db ⟨userId, productId, .num q⟩).calls =
        [.productsFindOne (parseInt productId)]) := by
  by_cases hp : ∃ prod ∈ db.products, prod._id = parseInt productId
  · rw [postCart_ok db userId productId q hu hq hp]
    simp [hp]
  · rw [postCart_not_found db userId productId q hu hq hp]
    simp [hp]

/-- Instance of C11 on the example store: product 5 is not in the catalog. -/
theorem postCart_not_found_iff_witness :
    (postCart exampleDb ⟨.str "7", .num 5, .num 2⟩).response.status = 404 ∧
    (postCart exampleDb ⟨.str "7", .num 5, .num 2⟩).db = exampleDb ∧
    (postCart exampleDb ⟨.str "7", .num 5, .num 2⟩).calls =
      [.productsFindOne (parseInt (.num 5))] :=
  have w := postCart_not_found_iff exampleDb (.str "7") (.num 5) 2 (by decide) (by norm_num)
  have h404 : (postCart exampleDb ⟨.str "7", .num 5, .num 2⟩).response.status = 404 := by
    decide!
  ⟨h404, w.2 h404⟩

theorem deletedCount_eq_zero_iff (cart : List CartLine) (u p : IntOrNaN) :
    deletedCount cart u p = 0 ↔ linesFor cart u p = [] := by
  unfold deletedCount
  constructor
  · intro h
    apply linesFor_eq_nil_of_not_any
    cases hany : cart.any (matchesLine u p) with
    | false => rfl
    | true => simp [hany] at h
  · intro h
    simp [any_eq_false_of_linesFor cart u p h]

theorem deleteCart_absent (db : Db) (id : String) (userId : JVal)
    (hu : truthy userId = true)
    (h : linesFor db.cart (parseInt userId) (parseInt (.str id)) = []) :
    deleteCart db id userId =
      { response := ⟨404, .message "Item not found in cart."⟩
        db := db
        calls := [.cartDeleteOne (parseInt userId) (parseInt (.str id))] } := by
  have hc := (deletedCount_eq_zero_iff db.cart _ _).mpr h
  have he := cartDeleteOne_of_no_line _ _ db.cart h
  unfold deleteCart
  simp only [hu, hc, he, Bool.not_true, Bool.false_eq_true, ↓reduceIte]

theorem deleteCart_present (db : Db) (id : String) (userId : JVal)
    (hu : truthy userId = true)
    (h : linesFor db.cart (parseInt userId) (parseInt (.str id)) ≠ []) :
    deleteCart db id userId =
      { response := ⟨200, .view (calculateTotals
          (cartFind (cartDeleteOne db.cart (parseInt userId) (parseInt (.str id)))
            (parseInt userId)) db.products)⟩
        db := { db with cart := cartDeleteOne db.cart (parseInt userId) (parseInt (.str id)) }
        calls := [.cartDeleteOne (parseInt userId) (parseInt (.str id)),
          .cartFind (parseInt userId), .productsFind] } := by
  have hc : ¬ deletedCount db.cart (parseInt userId) (parseInt (.str id)) = 0 :=
    fun h0 => h ((deletedCount_eq_zero_iff db.cart _ _).mp h0)
  unfold deleteCart
  simp only [hu, hc, Bool.not_true, Bool.false_eq_true, ↓reduceIte]

/-- C12: a remove for (u, p) with userId present answers 404 and leaves the
store as it was when no line is stored for the pair; otherwise it answers 200,
users and products are untouched, and the cart is the old cart with exactly one
document taken out, the first one stored for (u, p). -/
theorem deleteCart_result (db : Db) (id : String) (userId : JVal)
    (hu : truthy userId = true) :
    (linesFor db.cart (parseInt userId) (parseInt (.str id)) = [] →
      (deleteCart db id userId).response.status = 404 ∧
      (deleteCart db id userId).db = db) ∧
    (linesFor db.cart (parseInt userId) (parseInt (.str id)) ≠ [] →
      (deleteCart db id userId).response.status = 200 ∧
      (deleteCart db id userId).db.users = db.users ∧
      (deleteCart db id userId).db.products = db.products ∧
      ∃ pre l post, db.cart = pre ++ l :: post ∧
        matchesLine (parseInt userId) (parseInt (.str id)) l = true ∧
        (∀ x ∈ pre, matchesLine (parseInt userId) (parseInt (.str id)) x = false) ∧
        (deleteCart db id userId).db.cart = pre ++ post) := by
  constructor
  · intro h
    rw [deleteCart_absent db id userId hu h]
    exact ⟨rfl, rfl⟩
  · intro h
    rw [deleteCart_present db id userId hu h]
    refine ⟨rfl, rfl, rfl, ?_⟩
    obtain ⟨l, hl⟩ := List.exists_mem_of_ne_nil _ h
    have hl2 := List.mem_filter.mp hl
    obtain ⟨a, l₁, l₂, hpre, ha, hcart, herase⟩ :=
      List.exists_of_eraseP hl2.1 hl2.2
    refine ⟨l₁, a, l₂, hcart, ha, ?_, herase⟩
    intro x hx
    simpa using hpre x hx

/-- Instance of C12 on the example store: user 8 holds a line for product 1
and none for product 2. -/
theorem deleteCart_result_witness :
    ((deleteCart exampleDb "2" (.str "8")).response.status = 404 ∧
      (deleteCart exampleDb "2" (.str "8")).db = exampleDb) ∧
    ((deleteCart exampleDb "1" (.str "8")).response.status = 200 ∧
      (deleteCart exampleDb "1" (.str "8")).db.users = exampleDb.users ∧
      (deleteCart exampleDb "1" (.str "8")).db.products = exampleDb.products ∧
      ∃ pre l post, exampleDb.cart = pre ++ l :: post ∧
        matchesLine (parseInt (.str "8")) (parseInt (.str "1")) l = true ∧
        (∀ x ∈ pre, matchesLine (parseInt (.str "8")) (parseInt (.str "1")) x = false) ∧
        (deleteCart exampleDb "1" (.str "8")).db.cart = pre ++ post) :=
  ⟨(deleteCart_result exampleDb "2" (.str "8") (by decide)).1 (by decide),
    (deleteCart_result exampleDb "1" (.str "8") (by decide)).2 (by decide)⟩

theorem mem_of_productsFindOne (ps : List Product) (id : IntOrNaN) (prod : Product)
    (h : productsFindOne ps id = some prod) : ∃ x ∈ ps, x._id = id := by
  unfold productsFindOne at h
  exact ⟨prod, List.mem_of_find?_eq_some h, by simpa using List.find?_some h⟩

theorem postCart_status_200 (db : Db) (body : CartBody)
    (h : (postCart db body).response.status = 200) :
    ∃ q, body.qty = .num q ∧ truthy body.userId = true ∧ 0 ≤ q ∧
      ∃ prod ∈ db.products, prod._id = parseInt body.productId := by
  obtain ⟨userId, productId, qty⟩ := body
  cases qty with
  | num q =>
    by_cases hu : truthy userId = true
    · by_cases hq : q < 0
      · simp [postCart, hu, hq, invalidCartBody] at h
      · by_cases hp : ∃ prod ∈ db.products, prod._id = parseInt productId
        · exact ⟨q, rfl, hu, not_lt.mp hq, hp⟩
        · rw [postCart_not_found db userId productId q hu (not_lt.mp hq) hp] at h
          simp at h
    · have hu2 : truthy userId = false := by simpa using hu
      simp [postCart, hu2, invalidCartBody] at h
  | undefined => simp [postCart, invalidCartBody] at h
  | null => simp [postCart, invalidCartBody] at h
  | bool b => simp [postCart, invalidCartBody] at h
  | str s => simp [postCart, invalidCartBody] at h

theorem deleteCart_unauthorized (db : Db) (id : String) (userId : JVal)
    (hu : truthy userId = false) :
    deleteCart db id userId =
      { response := ⟨401, .message "User ID is required to modify cart."⟩
        db := db
        calls := [] } := by
  unfold deleteCart
  simp only [hu, Bool.not_false, ↓reduceIte]

theorem deleteCart_status_200 (db : Db) (id : String) (userId : JVal)
    (h : (deleteCart db id userId).response.status = 200) :
    truthy userId = true ∧ linesFor db.cart (parseInt userId) (parseInt (.str id)) ≠ [] := by
  by_cases hu : truthy userId = true
  · refine ⟨hu, fun hnil => ?_⟩
    rw [deleteCart_absent db id userId hu hnil] at h
    simp at h
  · have hu2 : truthy userId = false := by simpa using hu
    rw [deleteCart_unauthorized db id userId hu2] at h
    simp at h

/-- C13: a POST /api/cart or a DELETE /api/cart/:id that answers 200 returns
calculateTotals of the lines stored for that user after the mutation and the
catalog, and a GET /api/cart for the same user on the store left behind gives
the very same response. -/
theorem mutation_returns_view :
    (∀ (db : Db) (body : CartBody) (getUserId : JVal),
      (postCart db body).response.status = 200 → truthy getUserId = true →
      parseInt getUserId = parseInt body.userId →
      (postCart db body).response.body =
        .view (calculateTotals
          (cartFind (postCart db body).db.cart (parseInt body.userId))
          (postCart db body).db.products) ∧
      (getCart (postCart db body).db getUserId).response = (postCart db body).response) ∧
    (∀ (db : Db) (id : String) (userId getUserId : JVal),
      (deleteCart db id userId).response.status = 200 → truthy getUserId = true →
      parseInt getUserId = parseInt userId →
      (deleteCart db id userId).response.body =
        .view (calculateTotals
          (cartFind (deleteCart db id userId).db.cart (parseInt userId))
          (deleteCart db id userId).db.products) ∧
      (getCart (deleteCart db id userId).db getUserId).response =
        (deleteCart db id userId).response) := by
  constructor
  · intro db body getUserId h hg hsame
    obtain ⟨q, hqty, hu, hq, hp⟩ := postCart_status_200 db body h
    obtain ⟨userId, productId, qty⟩ := body
    simp only at hqty hu hp hsame ⊢
    subst hqty
    rw [postCart_ok db userId productId q hu hq hp, getCart_ok _ getUserId hg, hsame]
    exact ⟨rfl, rfl⟩
  · intro db id userId getUserId h hg hsame
    obtain ⟨hu, hne⟩ := deleteCart_status_200 db id userId h
    rw [deleteCart_present db id userId hu hne, getCart_ok _ getUserId hg, hsame]
    exact ⟨rfl, rfl⟩

/-- Instance of C13 on the example store: user 7 sets product 1 to 5 units,
user 8 removes product 1. -/
theorem mutation_returns_view_witness :
    ((postCart exampleDb ⟨.num 7, .num 1, .num 5⟩).response.body =
        .view (calculateTotals
          (cartFind (postCart exampleDb ⟨.num 7, .num 1, .num 5⟩).db.cart (parseInt (.num 7)))
          (postCart exampleDb ⟨.num 7, .num 1, .num 5⟩).db.products) ∧
      (getCart (postCart exampleDb ⟨.num 7, .num 1, .num 5⟩).db (.str "7")).response =
        (postCart exampleDb ⟨.num 7, .num 1, .num 5⟩).response) ∧
    ((deleteCart exampleDb "1" (.str "8")).response.body =
        .view (calculateTotals
          (cartFind (deleteCart exampleDb "1" (.str "8")).db.cart (parseInt (.str "8")))
          (deleteCart exampleDb "1" (.str "8")).db.products) ∧
      (getCart (deleteCart exampleDb "1" (.str "8")).db (.str "8")).response =
        (deleteCart exampleDb "1" (.str "8")).response) :=
  ⟨mutation_returns_view.1 exampleDb ⟨.num 7, .num 1, .num 5⟩ (.str "7") (by decide!)
      (by decide) (by decide!),
    mutation_returns_view.2 exampleDb "1" (.str "8") (.str "8") (by decide!) (by decide) rfl⟩

theorem checkout_missing (db : Db) (body : CheckoutBody) (random : ℚ) (timestamp : String)
    (h : truthy body.userId = false ∨ truthy body.name = false ∨ truthy body.email = false) :
    checkout db body random timestamp =
      { response := ⟨400, .message "User ID, name, and email are required for checkout."⟩
        db := db
        calls := [] } := by
  unfold checkout
  rcases h with h | h | h <;> simp [h]

theorem checkout_empty (db : Db) (body : CheckoutBody) (random : ℚ) (timestamp : String)
    (hu : truthy body.userId = true) (hn : truthy body.name = true)
    (he : truthy body.email = true) (hc : cartFind db.cart (parseInt body.userId) = []) :
    checkout db body random timestamp =
      { response := ⟨400, .message "Cannot checkout with an empty cart."⟩
        db := db
        calls := [.cartFind (parseInt body.userId)] } := by
  unfold checkout
  simp [hu, hn, he, hc]

theorem checkout_ok (db : Db) (body : CheckoutBody) (random : ℚ) (timestamp : String)
    (hu : truthy body.userId = true) (hn : truthy body.name = true)
    (he : truthy body.email = true) (hc : cartFind db.cart (parseInt body.userId) ≠ []) :
    checkout db body random timestamp =
      { response := ⟨200, .receipt "Checkout successful!"
          { orderId := ⌊random * 1000000⌋
            timestamp := timestamp
            customer :=
              { name := body.name, email := body.email, userId := parseInt body.userId }
            totalPaid := (calculateTotals (cartFind db.cart (parseInt body.userId))
              db.products).grandTotal
            items := (calculateTotals (cartFind db.cart (parseInt body.userId))
              db.products).items }⟩
        db := { db with cart := cartDeleteMany db.cart (parseInt body.userId) }
        calls := [.cartFind (parseInt body.userId), .productsFind,
          .cartDeleteMany (parseInt body.userId)] } := by
  have hlen : ¬ (cartFind db.cart (parseInt body.userId)).length = 0 := by
    rw [List.length_eq_zero]; exact hc
  unfold checkout
  simp only [hu, hn, he, hlen, Bool.not_true, Bool.or_self, Bool.false_eq_true, ↓reduceIte]

theorem checkout_status_200 (db : Db) (body : CheckoutBody) (random : ℚ) (timestamp : String)
    (h : (checkout db body random timestamp).response.status = 200) :
    truthy body.userId = true ∧ truthy body.name = true ∧ truthy body.email = true ∧
      cartFind db.cart (parseInt body.userId) ≠ [] := by
  by_cases hu : truthy body.userId = true
  · by_cases hn : truthy body.name = true
    · by_cases he : truthy body.email = true
      · refine ⟨hu, hn, he, fun hc => ?_⟩
        rw [checkout_empty db body random timestamp hu hn he hc] at h
        simp at h
      · rw [checkout_missing db body random timestamp (Or.inr (Or.inr (by simpa using he)))] at h
        simp at h
    · rw [checkout_missing db body random timestamp (Or.inr (Or.inl (by simpa using hn)))] at h
      simp at h
  · rw [checkout_missing db body random timestamp (Or.inl (by simpa using hu))] at h
    simp at h

theorem cartFind_deleteMany (cart : List CartLine) (u : IntOrNaN) :
    cartFind (cartDeleteMany cart u) u = [] := by
  unfold cartFind cartDeleteMany
  rw [List.filter_eq_nil_iff]
  intro l hl
  have := (List.mem_filter.mp hl).2
  simpa using this

theorem cartFind_deleteMany_ne (cart : List CartLine) (u v : IntOrNaN) (h : v ≠ u) :
    cartFind (cartDeleteMany cart u) v = cartFind cart v := by
  unfold cartFind cartDeleteMany
  rw [List.filter_filter]
  apply List.filter_congr
  intro l _
  by_cases hv : l.userId = v
  · have : l.userId ≠ u := fun e => h (hv.symm.trans e)
    simp [hv, this, h]
  · simp [hv]

/-- C14: when user u has at least one cart line and the request carries u, a
name and an email, checkout answers 200, no line of u is left in the cart, the
lines of every other user are still there, and a GET /api/cart for u on the
store left behind answers 200 with zero items. -/
theorem checkout_empties_cart (db : Db) (body : CheckoutBody) (random : ℚ)
    (timestamp : String) (hu : truthy body.userId = true) (hn : truthy body.name = true)
    (he : truthy body.email = true) (hc : cartFind db.cart (parseInt body.userId) ≠ []) :
    (checkout db body random timestamp).response.status = 200 ∧
    cartFind (checkout db body random timestamp).db.cart (parseInt body.userId) = [] ∧
    (∀ v, v ≠ parseInt body.userId →
      cartFind (checkout db body random timestamp).db.cart v = cartFind db.cart v) ∧
    (getCart (checkout db body random timestamp).db body.userId).response.status = 200 ∧
    ∃ view, (getCart (checkout db body random timestamp).db body.userId).response.body =
        .view view ∧ view.items = [] := by
  rw [checkout_ok db body random timestamp hu hn he hc, getCart_ok _ body.userId hu]
  refine ⟨rfl, cartFind_deleteMany _ _, fun v hv => cartFind_deleteMany_ne _ _ v hv, rfl,
    _, rfl, ?_⟩
  show (calculateTotals (cartFind (cartDeleteMany db.cart (parseInt body.userId))
    (parseInt body.userId)) db.products).items = []
  rw [cartFind_deleteMany]
  rfl

/-- Instance of C14 on the example store: user 7 checks out. -/
theorem checkout_empties_cart_witness :
    (checkout exampleDb exampleCheckout (1 / 2) "t").response.status = 200 ∧
    cartFind (checkout exampleDb exampleCheckout (1 / 2) "t").db.cart
      (parseInt exampleCheckout.userId) = [] ∧
    (getCart (checkout exampleDb exampleCheckout (1 / 2) "t").db
      exampleCheckout.userId).response.status = 200 :=
  have w := checkout_empties_cart exampleDb exampleCheckout (1 / 2) "t" (by decide)
    (by decide) (by decide) (by decide)
  ⟨w.1, w.2.1, w.2.2.2.1⟩

/-- C15: when userId, name and email are present and the user has no cart
line, checkout answers 400 with the message of the empty cart, the store is
left as it was, and the only store call made is the read of the cart lines: the
catalog is not read. -/
theorem checkout_empty_cart (db : Db) (body : CheckoutBody) (random : ℚ)
    (timestamp : String) (hu : truthy body.userId = true) (hn : truthy body.name = true)
    (he : truthy body.email = true) (hc : cartFind db.cart (parseInt body.userId) = []) :
    (checkout db body random timestamp).response =
      ⟨400, .message "Cannot checkout with an empty cart."⟩ ∧
    (checkout db body random timestamp).db = db ∧
    (checkout db body random timestamp).calls = [.cartFind (parseInt body.userId)] := by
  rw [checkout_empty db body random timestamp hu hn he hc]
  exact ⟨rfl, rfl, rfl⟩

/-- Instance of C15 on the example store: user 9 has no cart line. -/
theorem checkout_empty_cart_witness :
    (checkout exampleDb emptyCheckout (1 / 2) "t").response =
      ⟨400, .message "Cannot checkout with an empty cart."⟩ ∧
    (checkout exampleDb emptyCheckout (1 / 2) "t").db = exampleDb ∧
    (checkout exampleDb emptyCheckout (1 / 2) "t").calls =
      [.cartFind (parseInt emptyCheckout.userId)] :=
  checkout_empty_cart exampleDb emptyCheckout (1 / 2) "t" (by decide) (by decide) (by decide)
    (by decide)

/-- C16: a checkout that answers 200 carries a receipt whose totalPaid and
items are the grandTotal and the items of calculateTotals on the lines of the
user and the catalog as stored before the call, the view a GET /api/cart on
that store returns, and whose customer is (name, email, parseInt(userId)) of
the request. -/
theorem checkout_receipt (db : Db) (body : CheckoutBody) (random : ℚ) (timestamp : String)
    (h : (checkout db body random timestamp).response.status = 200) :
    ∃ message receipt,
      (checkout db body random timestamp).response.body = .receipt message receipt ∧
      receipt.totalPaid =
        (calculateTotals (cartFind db.cart (parseInt body.userId)) db.products).grandTotal ∧
      receipt.items =
        (calculateTotals (cartFind db.cart (parseInt body.userId)) db.products).items ∧
      receipt.customer =
        { name := body.name, email := body.email, userId := parseInt body.userId } ∧
      (getCart db body.userId).response.body =
        .view (calculateTotals (cartFind db.cart (parseInt body.userId)) db.products) := by
  obtain ⟨hu, hn, he, hc⟩ := checkout_status_200 db body random timestamp h
  rw [checkout_ok db body random timestamp hu hn he hc, getCart_ok db body.userId hu]
  exact ⟨_, _, rfl, rfl, rfl, rfl, rfl⟩

/-- Instance of C16 on the example store: the checkout of user 7, who holds two
units of product 1. -/
theorem checkout_receipt_witness :
    ∃ message receipt,
      (checkout exampleDb exampleCheckout (1 / 2) "t").response.body =
        .receipt message receipt ∧
      receipt.totalPaid =
        (calculateTotals (cartFind exampleDb.cart (parseInt exampleCheckout.userId))
          exampleDb.products).grandTotal ∧
      receipt.items =
        (calculateTotals (cartFind exampleDb.cart (parseInt exampleCheckout.userId))
          exampleDb.products).items ∧
      receipt.customer =
        { name := exampleCheckout.name, email := exampleCheckout.email,
          userId := parseInt exampleCheckout.userId } ∧
      (getCart exampleDb exampleCheckout.userId).response.body =
        .view (calculateTotals (cartFind exampleDb.cart (parseInt exampleCheckout.userId))
          exampleDb.products) :=
  checkout_receipt exampleDb exampleCheckout (1 / 2) "t" (by decide!)

theorem getCart_unauthorized (db : Db) (userId : JVal) (hu : truthy userId = false) :
    getCart db userId =
      { response := ⟨401, .message "User ID is required to view cart."⟩
        db := db
        calls := [] } := by
  unfold getCart
  simp only [hu, Bool.not_false, ↓reduceIte]

theorem postCart_missing_user (db : Db) (body : CartBody) (hu : truthy body.userId = false) :
    postCart db body = invalidCartBody db := by
  unfold postCart
  cases body.qty <;> simp [hu]

/-- C17: a request whose required field is absent (undefined) or empty, or
falsy in any other way, is rejected before the store is touched: GET /api/cart
and DELETE /api/cart/:id answer 401 without userId, POST /api/cart answers 400
without userId, checkout answers 400 without userId, name or email; each time
the store is left as it was and no store call is made. -/
theorem missing_field_rejected (db : Db) :
    (truthy .undefined = false ∧ truthy (.str "") = false) ∧
    (∀ userId, truthy userId = false →
      (getCart db userId).response.status = 401 ∧ (getCart db userId).db = db ∧
      (getCart db userId).calls = []) ∧
    (∀ id userId, truthy userId = false →
      (deleteCart db id userId).response.status = 401 ∧ (deleteCart db id userId).db = db ∧
      (deleteCart db id userId).calls = []) ∧
    (∀ body, truthy body.userId = false →
      (postCart db body).response.status = 400 ∧ (postCart db body).db = db ∧
      (postCart db body).calls = []) ∧
    (∀ body random timestamp,
      (truthy body.userId = false ∨ truthy body.name = false ∨ truthy body.email = false) →
      (checkout db body random timestamp).response.status = 400 ∧
      (checkout db body random timestamp).db = db ∧
      (checkout db body random timestamp).calls = []) := by
  refine ⟨⟨rfl, rfl⟩, ?_, ?_, ?_, ?_⟩
  · intro userId hu
    rw [getCart_unauthorized db userId hu]
    exact ⟨rfl, rfl, rfl⟩
  · intro id userId hu
    rw [deleteCart_unauthorized db id userId hu]
    exact ⟨rfl, rfl, rfl⟩
  · intro body hu
    rw [postCart_missing_user db body hu]
    exact ⟨rfl, rfl, rfl⟩
  · intro body random timestamp h
    rw [checkout_missing db body random timestamp h]
    exact ⟨rfl, rfl, rfl⟩

/-- Instance of C17 on the example store: userId absent in GET, DELETE and
POST, email empty in checkout. -/
theorem missing_field_rejected_witness :
    ((getCart exampleDb .undefined).response.status = 401 ∧
      (getCart exampleDb .undefined).db = exampleDb ∧
      (getCart exampleDb .undefined).calls = []) ∧
    ((deleteCart exampleDb "1" .undefined).response.status = 401 ∧
      (deleteCart exampleDb "1" .undefined).db = exampleDb ∧
      (deleteCart exampleDb "1" .undefined).calls = []) ∧
    ((postCart exampleDb ⟨.undefined, .num 1, .num 2⟩).response.status = 400 ∧
      (postCart exampleDb ⟨.undefined, .num 1, .num 2⟩).db = exampleDb ∧
      (postCart exampleDb ⟨.undefined, .num 1, .num 2⟩).calls = []) ∧
    ((checkout exampleDb { exampleCheckout with email := .str "" } (1 / 2) "t").response.status
        = 400 ∧
      (checkout exampleDb { exampleCheckout with email := .str "" } (1 / 2) "t").db
        = exampleDb ∧
      (checkout exampleDb { exampleCheckout with email := .str "" } (1 / 2) "t").calls = []) :=
  ⟨(missing_field_rejected exampleDb).2.1 .undefined rfl,
    (missing_field_rejected exampleDb).2.2.1 "1" .undefined rfl,
    (missing_field_rejected exampleDb).2.2.2.1 ⟨.undefined, .num 1, .num 2⟩ rfl,
    (missing_field_rejected exampleDb).2.2.2.2 { exampleCheckout with email := .str "" }
      (1 / 2) "t" (Or.inr (Or.inr rfl))⟩

/-- C18 (as stated) fails: on the example store GET /api/cart with userId
"abc", which parseInt reads as NaN, is answered 200, not 401. -/
theorem getCart_unparseable_counterexample :
    parseInt (.str "abc") = none ∧
    (getCart exampleDb (.str "abc")).response.status = 200 ∧
    (getCart exampleDb (.str "abc")).response.status ≠ 401 := by
  decide

/-- C18 (amended): GET /api/cart answers 401 exactly when userId is absent,
empty or otherwise falsy; a userId that is present but cannot be parsed as an
integer is answered 200 with the view of the lines stored under NaN. -/
theorem getCart_unauthorized_iff (db : Db) (userId : JVal) :
    ((getCart db userId).response.status = 401 ↔ truthy userId = false) ∧
    (truthy userId = true → parseInt userId = none →
      (getCart db userId).response =
        ⟨200, .view (calculateTotals (cartFind db.cart none) db.products)⟩) := by
  cases hu : truthy userId with
  | false =>
    rw [getCart_unauthorized db userId hu]
    simp
  | true =>
    rw [getCart_ok db userId hu]
    refine ⟨by simp, fun _ hnan => ?_⟩
    rw [hnan]

/-- Instance of C18 (amended) on the example store: userId "abc". -/
theorem getCart_unauthorized_iff_witness :
    (getCart exampleDb (.str "abc")).response =
      ⟨200, .view (calculateTotals (cartFind exampleDb.cart none) exampleDb.products)⟩ :=
  (getCart_unauthorized_iff exampleDb (.str "abc")).2 (by decide) (by decide)

theorem postCart_client_error (db : Db) (body : CartBody)
    (h : isClientError (postCart db body).response.status) : (postCart db body).db = db := by
  by_cases h200 : (postCart db body).response.status = 200
  · rw [h200] at h
    exact absurd h (by decide)
  · unfold postCart at h200 ⊢
    dsimp only at h200 ⊢
    repeat' split
    all_goals first
      | rfl
      | (exfalso; apply h200; simp_all)

theorem deleteCart_client_error (db : Db) (id : String) (userId : JVal)
    (h : isClientError (deleteCart db id userId).response.status) :
    (deleteCart db id userId).db = db := by
  cases hu : truthy userId with
  | false => rw [deleteCart_unauthorized db id userId hu]
  | true =>
    by_cases hl : linesFor db.cart (parseInt userId) (parseInt (.str id)) = []
    · rw [deleteCart_absent db id userId hu hl]
    · rw [deleteCart_present db id userId hu hl] at h
      simp [isClientError] at h

theorem checkout_client_error (db : Db) (body : CheckoutBody) (random : ℚ)
    (timestamp : String) (h : isClientError (checkout db body random timestamp).response.status) :
    (checkout db body random timestamp).db = db := by
  by_cases h200 : (checkout db body random timestamp).response.status = 200
  · rw [h200] at h
    exact absurd h (by decide)
  · unfold checkout at h200 ⊢
    dsimp only at h200 ⊢
    repeat' split
    all_goals first
      | rfl
      | (exfalso; apply h200; simp_all)

theorem register_client_error (db : Db) (body : RegisterBody) (salt : String)
    (hash : String → String → String) (insertedId : String)
    (h : isClientError (register db body salt hash insertedId).response.status) :
    (register db body salt hash insertedId).db = db := by
  unfold register at h ⊢
  repeat' split
  all_goals first
    | rfl
    | (exfalso; simp_all [isClientError])

theorem createProduct_client_error (db : Db) (body : ProductBody) (o : Outcome)
    (ho : createProduct db body = some o) (h : isClientError o.response.status) :
    o.db = db := by
  unfold createProduct at ho
  dsimp only at ho
  repeat' split at ho
  all_goals first
    | (injection ho with ho; subst ho; rfl)
    | (injection ho with ho; subst ho; simp [isClientError] at h)
    | exact Option.noConfusion ho

theorem createProduct_eq_none (db : Db) (body : ProductBody)
    (h : createProduct db body = none) :
    truthy body.id = true ∧ truthy body.price = true ∧
      productsFindOne db.products (parseInt body.id) = none ∧ parseFloat body.price = none := by
  unfold createProduct at h
  dsimp only at h
  split at h
  · exact Option.noConfusion h
  · rename_i hchk
    simp only [not_or] at hchk
    obtain ⟨hid, _, hprice, _, _, _, hdet⟩ := hchk
    have hid2 : truthy body.id = true := by simpa using hid
    have hprice2 : truthy body.price = true := by simpa using hprice
    cases hfind : productsFindOne db.products (parseInt body.id) with
    | some prod => simp [hfind] at h
    | none =>
      refine ⟨hid2, hprice2, rfl, ?_⟩
      cases hpf : parseFloat body.price with
      | none => rfl
      | some price =>
        cases hd : body.details with
        | none => exact absurd hd hdet
        | some details => simp [hfind, hpf, hd] at h

/-- C19: whenever an upsert, a remove, a checkout, a registration or a product
creation answers with a client error (400, 401, 404 or 409), the store after
the call, with its users, products and cart collections, is the store before
the call.  (A product creation has no outcome in the model only when the request
is past both client-error returns and its price is not a finite number.) -/
theorem client_error_leaves_store :
    (∀ (db : Db) (body : CartBody),
      isClientError (postCart db body).response.status → (postCart db body).db = db) ∧
    (∀ (db : Db) (id : String) (userId : JVal),
      isClientError (deleteCart db id userId).response.status →
      (deleteCart db id userId).db = db) ∧
    (∀ (db : Db) (body : CheckoutBody) (random : ℚ) (timestamp : String),
      isClientError (checkout db body random timestamp).response.status →
      (checkout db body random timestamp).db = db) ∧
    (∀ (db : Db) (body : RegisterBody) (salt : String) (hash : String → String → String)
      (insertedId : String),
      isClientError (register db body salt hash insertedId).response.status →
      (register db body salt hash insertedId).db = db) ∧
    (∀ (db : Db) (body : ProductBody) (o : Outcome),
      createProduct db body = some o → isClientError o.response.status → o.db = db) ∧
    (∀ (db : Db) (body : ProductBody), createProduct db body = none →
      truthy body.id = true ∧ truthy body.price = true ∧
      productsFindOne db.products (parseInt body.id) = none ∧ parseFloat body.price = none) :=
  ⟨postCart_client_error, deleteCart_client_error, checkout_client_error,
    register_client_error, createProduct_client_error, createProduct_eq_none⟩

/-- Instance of C19: an upsert of an unknown product (404), a remove of an
absent line (404), a checkout without email (400), a registration with a taken
email (409) and a creation of an existing product (409) leave the store as it
was. -/
theorem client_error_leaves_store_witness :
    (postCart exampleDb ⟨.str "7", .num 5, .num 2⟩).db = exampleDb ∧
    (deleteCart exampleDb "2" (.str "8")).db = exampleDb ∧
    (checkout exampleDb { exampleCheckout with email := .str "" } (1 / 2) "t").db = exampleDb ∧
    (register registeredDb ⟨"Bea", "ann@example.org", "secret"⟩ "salt" exampleHash
      "665f9a0b1c2d3e4f50617283").db = registeredDb ∧
    ({ response := ⟨409, .productExists (.num 1)⟩, db := exampleDb,
       calls := [.productsFindOne (some 1)] } : Outcome).db = exampleDb :=
  ⟨client_error_leaves_store.1 exampleDb ⟨.str "7", .num 5, .num 2⟩ (by decide!),
    client_error_leaves_store.2.1 exampleDb "2" (.str "8") (by decide),
    client_error_leaves_store.2.2.1 exampleDb { exampleCheckout with email := .str "" }
      (1 / 2) "t" (by decide),
    client_error_leaves_store.2.2.2.1 registeredDb ⟨"Bea", "ann@example.org", "secret"⟩ "salt"
      exampleHash "665f9a0b1c2d3e4f50617283" (by decide),
    client_error_leaves_store.2.2.2.2.1 exampleDb
      ⟨.num 1, "Mug", .num 12, "home", "mug.png", "A mug", some []⟩ _ (by decide!)
      (by decide)⟩

theorem cartFind_updateOne_ne (u p v : IntOrNaN) (q : ℚ) (cart : List CartLine) (h : v ≠ u) :
    cartFind (cartUpdateOne u p q cart) v = cartFind cart v := by
  unfold cartFind
  induction cart with
  | nil =>
    have : ¬ u = v := fun e => h e.symm
    simp [cartUpdateOne, this]
  | cons l ls ih =>
    cases hm : matchesLine u p l with
    | true =>
      have hk := (matchesLine_iff u p l).mp hm
      simp only [lineKey, Prod.mk.injEq] at hk
      have h1 : ¬ l.userId = v := fun e => h (e.symm.trans hk.1)
      simp [cartUpdateOne, hm, List.filter_cons, h1]
    | false =>
      simp only [cartUpdateOne, hm, Bool.false_eq_true, ↓reduceIte, List.filter_cons, ih]

theorem cartFind_deleteOne_ne (u p v : IntOrNaN) (cart : List CartLine) (h : v ≠ u) :
    cartFind (cartDeleteOne cart u p) v = cartFind cart v := by
  unfold cartFind cartDeleteOne
  induction cart with
  | nil => rfl
  | cons l ls ih =>
    cases hm : matchesLine u p l with
    | true =>
      have hk := (matchesLine_iff u p l).mp hm
      simp only [lineKey, Prod.mk.injEq] at hk
      have h1 : ¬ l.userId = v := fun e => h (e.symm.trans hk.1)
      simp [List.eraseP_cons, hm, List.filter_cons, h1]
    | false =>
      simp only [List.eraseP_cons, hm, cond_false, List.filter_cons, ih]

theorem getCart_response_congr (db1 db2 : Db) (b : JVal)
    (hp : db1.products = db2.products)
    (hc : cartFind db1.cart (parseInt b) = cartFind db2.cart (parseInt b)) :
    (getCart db1 b).response = (getCart db2 b).response := by
  unfold getCart
  dsimp only
  rw [hp, hc]
  split <;> rfl

/-- Where the cart is per user: a request made for a user whose identifier
parseInt reads differently from the identifier `b` leaves the response of
GET /api/cart for `b` as it was. -/
theorem getCart_unchanged_of_parseInt_ne (db : Db) (b : JVal) :
    (∀ body : CartBody, parseInt body.userId ≠ parseInt b →
      (getCart (postCart db body).db b).response = (getCart db b).response) ∧
    (∀ (id : String) (userId : JVal), parseInt userId ≠ parseInt b →
      (getCart (deleteCart db id userId).db b).response = (getCart db b).response) ∧
    (∀ (body : CheckoutBody) (random : ℚ) (timestamp : String),
      parseInt body.userId ≠ parseInt b →
      (getCart (checkout db body random timestamp).db b).response =
        (getCart db b).response) := by
  refine ⟨?_, ?_, ?_⟩
  · intro body hne
    apply getCart_response_congr
    · unfold postCart
      dsimp only
      repeat' split
      all_goals rfl
    · unfold postCart
      dsimp only
      repeat' split
      all_goals first
        | rfl
        | exact cartFind_deleteOne_ne _ _ _ _ (Ne.symm hne)
        | exact cartFind_updateOne_ne _ _ _ _ _ (Ne.symm hne)
  · intro id userId hne
    apply getCart_response_congr
    · unfold deleteCart
      dsimp only
      repeat' split
      all_goals rfl
    · unfold deleteCart
      dsimp only
      repeat' split
      all_goals first
        | rfl
        | exact cartFind_deleteOne_ne _ _ _ _ (Ne.symm hne)
  · intro body random timestamp hne
    apply getCart_response_congr
    · unfold checkout
      dsimp only
      repeat' split
      all_goals rfl
    · unfold checkout
      dsimp only
      repeat' split
      all_goals first
        | rfl
        | exact cartFind_deleteMany_ne _ _ _ (Ne.symm hne)

/-- C20 fails on the code: the two users have different identifiers, parseInt
reads both as 665, and after the first user puts two units of product 1 in the
cart, GET /api/cart for the second user, which returned no item before, returns
that line. -/
theorem cart_shared_between_users :
    firstUserId ≠ secondUserId ∧
    parseInt (.str firstUserId) = some 665 ∧
    parseInt (.str secondUserId) = some 665 ∧
    (getCart twoUserDb (.str secondUserId)).response =
      ⟨200, .view { items := [], subtotal := 0, shipping := 15, tax := 0, grandTotal := 15 }⟩ ∧
    (getCart (postCart twoUserDb ⟨.str firstUserId, .num 1, .num 2⟩).db
      (.str secondUserId)).response =
      ⟨200, .view
        { items := [{ productId := some 1, name := "Mug", price := 10, qty := 2,
                      imageUrl := "mug.png", lineTotal := 20 }]
          subtotal := 20, shipping := 15, tax := 8 / 5, grandTotal := 183 / 5 }⟩ := by
  decide!

/-! ## Lemmas on registration, login and product creation -/

theorem usersFindOne_eq_none_iff (users : List User) (email : String) :
    usersFindOne users email = none ↔ ¬ ∃ u ∈ users, u.email = email := by
  unfold usersFindOne
  rw [List.find?_eq_none]
  constructor
  · rintro h ⟨u, hmem, he⟩
    exact h u hmem (by simpa using he)
  · intro h u hmem he
    exact h ⟨u, hmem, by simpa using he⟩

theorem usersFindOne_some_email (users : List User) (email : String) (u : User)
    (h : usersFindOne users email = some u) : u ∈ users ∧ u.email = email := by
  unfold usersFindOne at h
  exact ⟨List.mem_of_find?_eq_some h, by simpa using List.find?_some h⟩

theorem register_created (db : Db) (body : RegisterBody) (salt : String)
    (hash : String → String → String) (insertedId : String)
    (hn : body.name ≠ "") (he : body.email ≠ "") (hp : body.password ≠ "")
    (hfree : ¬ ∃ u ∈ db.users, u.email = body.email) :
    register db body salt hash insertedId =
      { response := ⟨201, .registered "Registration successful. Please log in." insertedId⟩
        db := { db with users := db.users ++
          [{ _id := insertedId, name := body.name, email := body.email,
             password := hash body.password salt }] }
        calls := [.usersFindOne body.email,
          .usersInsertOne { _id := insertedId, name := body.name, email := body.email,
                            password := hash body.password salt }] } := by
  have hnone := (usersFindOne_eq_none_iff db.users body.email).mpr hfree
  unfold register
  simp only [hn, he, hp, hnone, or_self, ↓reduceIte]

theorem register_conflict (db : Db) (body : RegisterBody) (salt : String)
    (hash : String → String → String) (insertedId : String)
    (hn : body.name ≠ "") (he : body.email ≠ "") (hp : body.password ≠ "")
    (htaken : ∃ u ∈ db.users, u.email = body.email) :
    register db body salt hash insertedId =
      { response := ⟨409, .message "An account with this email already exists."⟩
        db := db
        calls := [.usersFindOne body.email] } := by
  cases hfind : usersFindOne db.users body.email with
  | none => exact absurd htaken ((usersFindOne_eq_none_iff db.users body.email).mp hfind)
  | some u =>
    unfold register
    simp only [hn, he, hp, hfind, or_self, ↓reduceIte]

theorem uniqueEmails_register (db : Db) (body : RegisterBody) (salt : String)
    (hash : String → String → String) (insertedId : String) (h : UniqueEmails db.users) :
    UniqueEmails (register db body salt hash insertedId).db.users := by
  by_cases hmiss : body.name = "" ∨ body.email = "" ∨ body.password = ""
  · unfold register
    simp only [hmiss, ↓reduceIte]
    exact h
  · simp only [not_or] at hmiss
    obtain ⟨hn, he, hp⟩ := hmiss
    by_cases htaken : ∃ u ∈ db.users, u.email = body.email
    · rw [register_conflict db body salt hash insertedId hn he hp htaken]
      exact h
    · rw [register_created db body salt hash insertedId hn he hp htaken]
      unfold UniqueEmails at h ⊢
      simp only [List.map_append, List.map_cons, List.map_nil]
      rw [List.nodup_append]
      refine ⟨h, List.nodup_singleton _, ?_⟩
      intro e he1 he2
      rw [List.mem_singleton] at he2
      subst he2
      obtain ⟨u, hu, hue⟩ := List.mem_map.mp he1
      exact htaken ⟨u, hu, hue⟩

/-- C21: on a users collection with no user of email e, a registration with
non-empty name, email e and password answers 201 and appends one user with
email e, leaving products and cart alone; on every store that holds a user of
email e, that one included, a registration with email e answers 409 and leaves
the store as it was; and a collection with pairwise distinct emails keeps
pairwise distinct emails under every registration. -/
theorem register_twice (db : Db) (body : RegisterBody) (salt : String)
    (hash : String → String → String) (insertedId : String)
    (hn : body.name ≠ "") (he : body.email ≠ "") (hp : body.password ≠ "")
    (hfree : ¬ ∃ u ∈ db.users, u.email = body.email) :
    ((register db body salt hash insertedId).response.status = 201 ∧
      (∃ u, u.email = body.email ∧
        (register db body salt hash insertedId).db.users = db.users ++ [u]) ∧
      (register db body salt hash insertedId).db.products = db.products ∧
      (register db body salt hash insertedId).db.cart = db.cart) ∧
    (∀ (later : RegisterBody) (salt2 : String) (hash2 : String → String → String)
      (insertedId2 : String), later.name ≠ "" → later.password ≠ "" →
      later.email = body.email →
      (register (register db body salt hash insertedId).db later salt2 hash2
        insertedId2).response.status = 409 ∧
      (register (register db body salt hash insertedId).db later salt2 hash2 insertedId2).db =
        (register db body salt hash insertedId).db) ∧
    (∀ (db2 : Db) (later : RegisterBody) (salt2 : String) (hash2 : String → String → String)
      (insertedId2 : String), later.name ≠ "" → later.password ≠ "" →
      later.email = body.email → (∃ u ∈ db2.users, u.email = body.email) →
      (register db2 later salt2 hash2 insertedId2).response.status = 409 ∧
      (register db2 later salt2 hash2 insertedId2).db = db2) ∧
    (∀ (db2 : Db) (any : RegisterBody) (salt2 : String) (hash2 : String → String → String)
      (insertedId2 : String), UniqueEmails db2.users →
      UniqueEmails (register db2 any salt2 hash2 insertedId2).db.users) := by
  have hall : ∀ (db2 : Db) (later : RegisterBody) (salt2 : String)
      (hash2 : String → String → String) (insertedId2 : String), later.name ≠ "" →
      later.password ≠ "" → later.email = body.email →
      (∃ u ∈ db2.users, u.email = body.email) →
      (register db2 later salt2 hash2 insertedId2).response.status = 409 ∧
      (register db2 later salt2 hash2 insertedId2).db = db2 := by
    intro db2 later salt2 hash2 insertedId2 hn2 hp2 hsame htaken
    have he2 : later.email ≠ "" := by rw [hsame]; exact he
    rw [register_conflict db2 later salt2 hash2 insertedId2 hn2 he2 hp2 (by rw [hsame]; exact htaken)]
    exact ⟨rfl, rfl⟩
  refine ⟨?_, ?_, hall, fun db2 any salt2 hash2 insertedId2 h =>
    uniqueEmails_register db2 any salt2 hash2 insertedId2 h⟩
  · rw [register_created db body salt hash insertedId hn he hp hfree]
    exact ⟨rfl, ⟨_, rfl, rfl⟩, rfl, rfl⟩
  · intro later salt2 hash2 insertedId2 hn2 hp2 hsame
    apply hall _ later salt2 hash2 insertedId2 hn2 hp2 hsame
    rw [register_created db body salt hash insertedId hn he hp hfree]
    exact ⟨_, List.mem_append_right _ (List.mem_singleton_self _), rfl⟩

/-- Instance of C21 on the example store with one registered user: Bea
registers, then a second registration with her email is refused. -/
theorem register_twice_witness :
    (register registeredDb beaRegister "salt" exampleHash
      "665f9a0b1c2d3e4f50617283").response.status = 201 ∧
    (register (register registeredDb beaRegister "salt" exampleHash
        "665f9a0b1c2d3e4f50617283").db
      ⟨"B.", "bea@example.org", "other"⟩ "pepper" exampleHash
      "665fa0b1c2d3e4f506172839").response.status = 409 ∧
    (register (register registeredDb beaRegister "salt" exampleHash
        "665f9a0b1c2d3e4f50617283").db
      ⟨"B.", "bea@example.org", "other"⟩ "pepper" exampleHash "665fa0b1c2d3e4f506172839").db =
      (register registeredDb beaRegister "salt" exampleHash "665f9a0b1c2d3e4f50617283").db ∧
    UniqueEmails (register registeredDb beaRegister "salt" exampleHash
      "665f9a0b1c2d3e4f50617283").db.users :=
  have w := register_twice registeredDb beaRegister "salt" exampleHash
    "665f9a0b1c2d3e4f50617283" (by decide) (by decide) (by decide) (by decide)
  have w2 := w.2.1 ⟨"B.", "bea@example.org", "other"⟩ "pepper" exampleHash
    "665fa0b1c2d3e4f506172839" (by decide) (by decide) rfl
  ⟨w.1.1, w2.1, w2.2, w.2.2.2 registeredDb beaRegister "salt" exampleHash
    "665f9a0b1c2d3e4f50617283" (by decide)⟩

/-- C22: a login with an email that matches no user and a login with the email
of a stored user whose hash the submitted password does not match get the same
response, status 401 with the message "Invalid credentials."; `compare` is any
predicate standing for the hash comparison. -/
theorem login_same_failure (db : Db) (unknown wrong : LoginBody)
    (compare : String → String → Bool) (user : User)
    (hue : unknown.email ≠ "") (hup : unknown.password ≠ "")
    (hwe : wrong.email ≠ "") (hwp : wrong.password ≠ "")
    (hnone : ¬ ∃ u ∈ db.users, u.email = unknown.email)
    (hfound : usersFindOne db.users wrong.email = some user)
    (hbad : compare wrong.password user.password = false) :
    (login db unknown compare).response = ⟨401, .message "Invalid credentials."⟩ ∧
    (login db wrong compare).response = ⟨401, .message "Invalid credentials."⟩ ∧
    (login db unknown compare).response = (login db wrong compare).response := by
  have h1 : (login db unknown compare).response = ⟨401, .message "Invalid credentials."⟩ := by
    have hn := (usersFindOne_eq_none_iff db.users unknown.email).mpr hnone
    unfold login
    simp only [hue, hup, hn, or_self, ↓reduceIte]
  have h2 : (login db wrong compare).response = ⟨401, .message "Invalid credentials."⟩ := by
    unfold login
    simp only [hwe, hwp, hfound, hbad, or_self, Bool.not_false, ↓reduceIte]
  exact ⟨h1, h2, h1.trans h2.symm⟩

/-- Instance of C22 on the example store with one registered user: an unknown
email, and the email of Ann with a password that does not match. -/
theorem login_same_failure_witness :
    (login registeredDb ⟨"zoe@example.org", "guess"⟩ exampleCompare).response =
      ⟨401, .message "Invalid credentials."⟩ ∧
    (login registeredDb ⟨"ann@example.org", "guess"⟩ exampleCompare).response =
      ⟨401, .message "Invalid credentials."⟩ ∧
    (login registeredDb ⟨"zoe@example.org", "guess"⟩ exampleCompare).response =
      (login registeredDb ⟨"ann@example.org", "guess"⟩ exampleCompare).response :=
  login_same_failure registeredDb ⟨"zoe@example.org", "guess"⟩ ⟨"ann@example.org", "guess"⟩
    exampleCompare exampleUser (by decide) (by decide) (by decide) (by decide) (by decide)
    (by decide) (by decide)

theorem createProduct_missing (db : Db) (body : ProductBody) (h : ¬ allFieldsPresent body) :
    createProduct db body =
      some { response := ⟨400, .message "All fields are required."⟩, db := db, calls := [] } := by
  have hchk : !truthy body.id ∨ body.name = "" ∨ !truthy body.price ∨ body.category = "" ∨
      body.imageUrl = "" ∨ body.description = "" ∨ body.details = none := by
    by_contra hcon
    simp only [not_or] at hcon
    obtain ⟨h1, h2, h3, h4, h5, h6, h7⟩ := hcon
    exact h ⟨by simpa using h1, h2, by simpa using h3, h4, h5, h6, h7⟩
  unfold createProduct
  rw [if_pos hchk]

theorem createProduct_conflict (db : Db) (body : ProductBody) (h : allFieldsPresent body)
    (hex : ∃ prod ∈ db.products, prod._id = parseInt body.id) :
    createProduct db body =
      some { response := ⟨409, .productExists body.id⟩
             db := db
             calls := [.productsFindOne (parseInt body.id)] } := by
  obtain ⟨h1, h2, h3, h4, h5, h6, h7⟩ := h
  obtain ⟨prod, hprod⟩ := productsFindOne_isSome db.products (parseInt body.id) hex
  unfold createProduct
  simp [h1, h2, h3, h4, h5, h6, h7, hprod]

theorem createProduct_created (db : Db) (body : ProductBody) (h : allFieldsPresent body)
    (hnew : ¬ ∃ prod ∈ db.products, prod._id = parseInt body.id)
    (price : ℚ) (hprice : parseFloat body.price = some price)
    (details : List String) (hdet : body.details = some details) :
    createProduct db body =
      some { response := ⟨201, .created "Product added successfully."
               { _id := parseInt body.id, name := body.name, price := price,
                 category := body.category, imageUrl := body.imageUrl,
                 description := body.description, details := details }⟩
             db := { db with products := db.products ++
               [{ _id := parseInt body.id, name := body.name, price := price,
                  category := body.category, imageUrl := body.imageUrl,
                  description := body.description, details := details }] }
             calls := [.productsFindOne (parseInt body.id),
               .productsInsertOne
                 { _id := parseInt body.id, name := body.name, price := price,
                   category := body.category, imageUrl := body.imageUrl,
                   description := body.description, details := details }] } := by
  obtain ⟨h1, h2, h3, h4, h5, h6, h7⟩ := h
  have hnone := (productsFindOne_eq_none_iff db.products (parseInt body.id)).mpr hnew
  unfold createProduct
  simp [h1, h2, h3, h4, h5, h6, hdet, hnone, hprice]

/-- Every outcome of a product creation is one of the three above. -/
theorem createProduct_cases (db : Db) (body : ProductBody) (o : Outcome)
    (ho : createProduct db body = some o) :
    (¬ allFieldsPresent body ∧ o.response.status = 400 ∧ o.db = db) ∨
    (allFieldsPresent body ∧ (∃ prod ∈ db.products, prod._id = parseInt body.id) ∧
      o.response.status = 409 ∧ o.db = db) ∨
    (allFieldsPresent body ∧ (¬ ∃ prod ∈ db.products, prod._id = parseInt body.id) ∧
      o.response.status = 201 ∧
      ∃ price details, parseFloat body.price = some price ∧ body.details = some details ∧
        o.db = { db with products := db.products ++
          [{ _id := parseInt body.id, name := body.name, price := price,
             category := body.category, imageUrl := body.imageUrl,
             description := body.description, details := details }] }) := by
  by_cases h : allFieldsPresent body
  · by_cases hex : ∃ prod ∈ db.products, prod._id = parseInt body.id
    · rw [createProduct_conflict db body h hex] at ho
      injection ho with ho; subst ho
      exact Or.inr (Or.inl ⟨h, hex, rfl, rfl⟩)
    · cases hpf : parseFloat body.price with
      | none =>
        have hnone := (productsFindOne_eq_none_iff db.products (parseInt body.id)).mpr hex
        obtain ⟨h1, h2, h3, h4, h5, h6, h7⟩ := h
        unfold createProduct at ho
        simp [h1, h2, h3, h4, h5, h6, h7, hnone, hpf] at ho
      | some price =>
        cases hd : body.details with
        | none => exact absurd hd h.2.2.2.2.2.2
        | some details =>
          rw [createProduct_created db body h hex price hpf details hd] at ho
          injection ho with ho; subst ho
          exact Or.inr (Or.inr ⟨h, hex, rfl, price, details, rfl, rfl, rfl⟩)
  · rw [createProduct_missing db body h] at ho
    injection ho with ho; subst ho
    exact Or.inl ⟨h, rfl, rfl⟩

theorem uniqueIds_createProduct (db : Db) (body : ProductBody) (o : Outcome)
    (ho : createProduct db body = some o) (h : UniqueIds db.products) :
    UniqueIds o.db.products := by
  rcases createProduct_cases db body o ho with ⟨_, _, hdb⟩ | ⟨_, _, _, hdb⟩ |
    ⟨_, hnew, _, price, details, _, _, hdb⟩
  · rw [hdb]; exact h
  · rw [hdb]; exact h
  · rw [hdb]
    unfold UniqueIds at h ⊢
    simp only [List.map_append, List.map_cons, List.map_nil]
    rw [List.nodup_append]
    refine ⟨h, List.nodup_singleton _, ?_⟩
    intro e he1 he2
    rw [List.mem_singleton] at he2
    subst he2
    obtain ⟨p, hp, hpe⟩ := List.mem_map.mp he1
    exact hnew ⟨p, hp, hpe⟩

/-! ## Claims on registration, login and product creation -/

/-- C23: for a product creation with all fields present, the answer is 409
with the store unchanged when a product with _id = parseInt(id) exists;
otherwise (the price being one parseFloat reads as a finite number) the answer
is 201 and exactly one product, with that _id, is appended to the catalog,
users and cart staying as they are; and a catalog with pairwise distinct _id
values has pairwise distinct _id values after every product creation. -/
theorem createProduct_unique_ids (db : Db) (body : ProductBody)
    (h : allFieldsPresent body) :
    ((∃ prod ∈ db.products, prod._id = parseInt body.id) →
      ∃ o, createProduct db body = some o ∧ o.response.status = 409 ∧ o.db = db) ∧
    ((¬ ∃ prod ∈ db.products, prod._id = parseInt body.id) →
      ∀ price, parseFloat body.price = some price →
      ∃ o newProduct, createProduct db body = some o ∧ o.response.status = 201 ∧
        newProduct._id = parseInt body.id ∧
        o.db.products = db.products ++ [newProduct] ∧
        o.db.users = db.users ∧ o.db.cart = db.cart) ∧
    (∀ (db2 : Db) (any : ProductBody) (o : Outcome), UniqueIds db2.products →
      createProduct db2 any = some o → UniqueIds o.db.products) := by
  refine ⟨?_, ?_, fun db2 any o hu ho => uniqueIds_createProduct db2 any o ho hu⟩
  · intro hex
    exact ⟨_, createProduct_conflict db body h hex, rfl, rfl⟩
  · intro hnew price hprice
    cases hd : body.details with
    | none => exact absurd hd h.2.2.2.2.2.2
    | some details =>
      exact ⟨_, _, createProduct_created db body h hnew price hprice details hd, rfl, rfl, rfl,
        rfl, rfl⟩

/-- Instance of C23 on the example store: product 1 exists, product 2 does
not. -/
theorem createProduct_unique_ids_witness :
    (∃ o, createProduct exampleDb mugAgainBody = some o ∧ o.response.status = 409 ∧
      o.db = exampleDb) ∧
    (∃ o newProduct, createProduct exampleDb penBody = some o ∧ o.response.status = 201 ∧
      newProduct._id = parseInt penBody.id ∧
      o.db.products = exampleDb.products ++ [newProduct] ∧
      o.db.users = exampleDb.users ∧ o.db.cart = exampleDb.cart) :=
  ⟨(createProduct_unique_ids exampleDb mugAgainBody (by decide)).1
      ⟨_, List.mem_cons_self _ _, by decide⟩,
    (createProduct_unique_ids exampleDb penBody (by decide!)).2.1 (by decide!) (3 / 2)
      (by decide!)⟩

/-- C24 (as stated) fails: on the example store the creation of product 2 with
price -5 is answered 201 and the product is stored with the price -5. -/
theorem createProduct_negative_counterexample :
    createProduct exampleDb negativePriceBody =
      some { response := ⟨201, .created "Product added successfully."
               { _id := some 2, name := "Pen", price := -5, category := "office",
                 imageUrl := "pen.png", description := "A pen", details := ["blue"] }⟩
             db := { exampleDb with products := exampleDb.products ++
               [{ _id := some 2, name := "Pen", price := -5, category := "office",
                  imageUrl := "pen.png", description := "A pen", details := ["blue"] }] }
             calls := [.productsFindOne (some 2),
               .productsInsertOne
                 { _id := some 2, name := "Pen", price := -5, category := "office",
                   imageUrl := "pen.png", description := "A pen", details := ["blue"] }] } ∧
    (-5 : ℚ) < 0 := by
  decide!

/-- C24 (amended): the product stored by a creation answered 201 carries the
price parseFloat reads from the price of the request; no check looks at its
sign: with all fields present and a new id, a numeric price q, negative ones
included, is answered 201 and stored as q. -/
theorem createProduct_stores_parsed_price (db : Db) (body : ProductBody) :
    (∀ o, createProduct db body = some o → o.response.status = 201 →
      ∃ price newProduct, parseFloat body.price = some price ∧ newProduct.price = price ∧
        o.db.products = db.products ++ [newProduct]) ∧
    (∀ q : ℚ, body.price = .num q → allFieldsPresent body →
      (¬ ∃ prod ∈ db.products, prod._id = parseInt body.id) →
      ∃ o newProduct, createProduct db body = some o ∧ o.response.status = 201 ∧
        newProduct.price = q ∧ o.db.products = db.products ++ [newProduct]) := by
  constructor
  · intro o ho h201
    rcases createProduct_cases db body o ho with ⟨_, h400, _⟩ | ⟨_, _, h409, _⟩ |
      ⟨_, _, _, price, details, hpf, _, hdb⟩
    · rw [h400] at h201; exact absurd h201 (by decide)
    · rw [h409] at h201; exact absurd h201 (by decide)
    · exact ⟨price, _, hpf, rfl, by rw [hdb]⟩
  · intro q hq hall hnew
    cases hd : body.details with
    | none => exact absurd hd hall.2.2.2.2.2.2
    | some details =>
      have hpf : parseFloat body.price = some q := by rw [hq]; rfl
      exact ⟨_, _, createProduct_created db body hall hnew q hpf details hd, rfl, rfl, rfl⟩

/-- Instance of C24 (amended) on the example store: the price -5. -/
theorem createProduct_stores_parsed_price_witness :
    ∃ o newProduct, createProduct exampleDb negativePriceBody = some o ∧
      o.response.status = 201 ∧ newProduct.price = -5 ∧
      o.db.products = exampleDb.products ++ [newProduct] :=
  (createProduct_stores_parsed_price exampleDb negativePriceBody).2 (-5) rfl (by decide!)
    (by decide!)

/-- C29 (as stated) fails in its last part: on the example store the creation
with id "0" and price "0", sent as strings, is answered 201 and stores a product
with identifier 0 and price 0. -/
theorem createProduct_zero_counterexample :
    createProduct exampleDb zeroStringsBody =
      some { response := ⟨201, .created "Product added successfully."
               { _id := some 0, name := "Sample", price := 0, category := "gift",
                 imageUrl := "sample.png", description := "A free sample", details := [] }⟩
             db := { exampleDb with products := exampleDb.products ++
               [{ _id := some 0, name := "Sample", price := 0, category := "gift",
                  imageUrl := "sample.png", description := "A free sample", details := [] }] }
             calls := [.productsFindOne (some 0),
               .productsInsertOne
                 { _id := some 0, name := "Sample", price := 0, category := "gift",
                   imageUrl := "sample.png", description := "A free sample",
                   details := [] }] } := by
  decide!

/-- C29 (amended): a product creation whose price is the number 0, or whose id
is the number 0, is answered 400 "All fields are required.", leaves the store as
it was and makes no store call; every creation answered 201 has a truthy id and
a truthy price, so neither is the number 0. -/
theorem createProduct_rejects_zero (db : Db) (body : ProductBody) :
    ((body.price = .num 0 ∨ body.id = .num 0) →
      createProduct db body =
        some { response := ⟨400, .message "All fields are required."⟩
               db := db
               calls := [] }) ∧
    (∀ o, createProduct db body = some o → o.response.status = 201 →
      truthy body.id = true ∧ truthy body.price = true ∧
      body.id ≠ .num 0 ∧ body.price ≠ .num 0) := by
  constructor
  · intro hz
    apply createProduct_missing
    rintro ⟨h1, _, h3, _⟩
    rcases hz with hz | hz
    · rw [hz] at h3; exact absurd h3 (by decide)
    · rw [hz] at h1; exact absurd h1 (by decide)
  · intro o ho h201
    rcases createProduct_cases db body o ho with ⟨_, h400, _⟩ | ⟨_, _, h409, _⟩ |
      ⟨hall, _, _, _⟩
    · rw [h400] at h201; exact absurd h201 (by decide)
    · rw [h409] at h201; exact absurd h201 (by decide)
    · refine ⟨hall.1, hall.2.2.1, ?_, ?_⟩
      · intro hz
        have := hall.1
        rw [hz] at this
        exact absurd this (by decide)
      · intro hz
        have := hall.2.2.1
        rw [hz] at this
        exact absurd this (by decide)

/-- Instance of C29 (amended) on the example store: the pen with the price
given as the number 0. -/
theorem createProduct_rejects_zero_witness :
    createProduct exampleDb { penBody with price := .num 0 } =
      some { response := ⟨400, .message "All fields are required."⟩
             db := exampleDb
             calls := [] } :=
  (createProduct_rejects_zero exampleDb { penBody with price := .num 0 }).1 (Or.inl rfl)

/-! ## Lemmas on the Cart page and on checkout -/

theorem orZero_some (q : ℚ) : orZero (some q) = q := by
  unfold orZero
  by_cases h : q = 0 <;> simp [h]

theorem round2_zero : round2 0 = 0 := by
  have := round2_cents 0
  simpa using this

theorem round2_fifteen : round2 15 = 15 := by
  have h := round2_cents 1500
  have e : ((1500 : ℤ) : ℚ) / 100 = 15 := by norm_num
  rw [e] at h
  exact h

theorem rawSubtotal_of_no_item (ls : List CartLine) (ps : List Product)
    (h : (calculateTotals ls ps).items = []) : rawSubtotal ls ps = 0 := by
  rw [calculateTotals_items, List.filterMap_eq_nil_iff] at h
  have hnil : (ls.filterMap fun l => (resolve ps l).map fun p => l.qty * p.price) = [] := by
    rw [List.filterMap_eq_nil_iff]
    intro l hl
    have := h l hl
    cases hr : resolve ps l with
    | none => rfl
    | some p => simp [hr] at this
  unfold rawSubtotal
  rw [hnil]
  rfl

theorem calculateTotals_of_no_item (ls : List CartLine) (ps : List Product)
    (h : (calculateTotals ls ps).items = []) :
    calculateTotals ls ps =
      { items := [], subtotal := 0, shipping := 15, tax := 0, grandTotal := 15 } := by
  have h0 := rawSubtotal_of_no_item ls ps h
  apply calculateTotals_ext
  · exact h
  · rw [calculateTotals_subtotal, h0, round2_zero]
  · rfl
  · rw [calculateTotals_tax, h0, zero_mul, round2_zero]
  · rw [calculateTotals_grandTotal, h0, zero_mul, zero_add, zero_add, round2_fifteen]

/-- C25: for a view v held by the Cart page, the shipping displayed is 0 when v
has no item and v.shipping otherwise, and the grand total displayed is
v.subtotal + v.tax + the shipping displayed; for a view of calculateTotals with
no item the page displays the grand total 0 while the grandTotal of the view is
15.00, and for a view of calculateTotals with an item the shipping displayed is
15.00. -/
theorem cartPage_display (v : CartView) :
    effectiveShipping (some v) = (if v.items = [] then 0 else v.shipping) ∧
    effectiveGrandTotal (some v) = v.subtotal + v.tax + effectiveShipping (some v) ∧
    (∀ (ls : List CartLine) (ps : List Product), (calculateTotals ls ps).items = [] →
      effectiveGrandTotal (some (calculateTotals ls ps)) = 0 ∧
      (calculateTotals ls ps).grandTotal = 15) ∧
    (∀ (ls : List CartLine) (ps : List Product), (calculateTotals ls ps).items ≠ [] →
      effectiveShipping (some (calculateTotals ls ps)) = 15) := by
  have hship : ∀ w : CartView,
      effectiveShipping (some w) = (if w.items = [] then 0 else w.shipping) := by
    intro w
    unfold effectiveShipping pageItems
    simp only [List.length_eq_zero]
  have htotal : ∀ w : CartView,
      effectiveGrandTotal (some w) = w.subtotal + w.tax + effectiveShipping (some w) := by
    intro w
    unfold effectiveGrandTotal
    simp only [Option.map_some', orZero_some]
  refine ⟨hship v, htotal v, ?_, ?_⟩
  · intro ls ps h
    rw [htotal, hship, calculateTotals_of_no_item ls ps h]
    norm_num
  · intro ls ps h
    rw [hship, if_neg h]
    rfl

/-- Instance of C25: the view of an empty cart, and the view of the worked
example. -/
theorem cartPage_display_witness :
    (effectiveGrandTotal (some (calculateTotals [] exampleCatalog)) = 0 ∧
      (calculateTotals [] exampleCatalog).grandTotal = 15) ∧
    effectiveShipping (some (calculateTotals exampleLines exampleCatalog)) = 15 :=
  ⟨(cartPage_display (calculateTotals [] exampleCatalog)).2.2.1 [] exampleCatalog rfl,
    (cartPage_display (calculateTotals [] exampleCatalog)).2.2.2 exampleLines exampleCatalog
      (by decide!)⟩

theorem checkout_congr (db : Db) (b1 b2 : CheckoutBody) (random : ℚ) (timestamp : String)
    (hu : b1.userId = b2.userId) (hn : b1.name = b2.name) (he : b1.email = b2.email) :
    checkout db b1 random timestamp = checkout db b2 random timestamp := by
  unfold checkout
  simp only [hu, hn, he]

theorem checkout_db_indep (db : Db) (body : CheckoutBody) (r1 r2 : ℚ) (t1 t2 : String) :
    (checkout db body r1 t1).db = (checkout db body r2 t2).db ∧
    (checkout db body r1 t1).response.status = (checkout db body r2 t2).response.status ∧
    (checkout db body r1 t1).calls = (checkout db body r2 t2).calls ∧
    ∀ m1 rc1 m2 rc2, (checkout db body r1 t1).response.body = .receipt m1 rc1 →
      (checkout db body r2 t2).response.body = .receipt m2 rc2 →
      rc1.totalPaid = rc2.totalPaid ∧ rc1.items = rc2.items ∧ rc1.customer = rc2.customer := by
  by_cases hv : truthy body.userId = true ∧ truthy body.name = true ∧ truthy body.email = true
  · obtain ⟨hu, hn, he⟩ := hv
    by_cases hc : cartFind db.cart (parseInt body.userId) = []
    · rw [checkout_empty db body r1 t1 hu hn he hc, checkout_empty db body r2 t2 hu hn he hc]
      refine ⟨rfl, rfl, rfl, ?_⟩
      intro m1 rc1 m2 rc2 h1
      exact Body.noConfusion h1
    · rw [checkout_ok db body r1 t1 hu hn he hc, checkout_ok db body r2 t2 hu hn he hc]
      refine ⟨rfl, rfl, rfl, ?_⟩
      intro m1 rc1 m2 rc2 h1 h2
      simp only [Body.receipt.injEq] at h1 h2
      rw [← h1.2, ← h2.2]
      exact ⟨rfl, rfl, rfl⟩
  · have hm : truthy body.userId = false ∨ truthy body.name = false ∨
        truthy body.email = false := by
      by_contra hcon
      simp only [not_or, Bool.not_eq_false] at hcon
      exact hv hcon
    rw [checkout_missing db body r1 t1 hm, checkout_missing db body r2 t2 hm]
    refine ⟨rfl, rfl, rfl, ?_⟩
    intro m1 rc1 m2 rc2 h1
    exact Body.noConfusion h1

/-- C26: two checkout requests that agree on userId, name and email, whatever
their grandTotal and cartItems fields, get the same status, leave the same
store, and their receipts, when there are any, carry the same totalPaid, items
and customer; with the same random number and timestamp the whole outcomes are
equal. -/
theorem checkout_ignores_client_totals (db : Db) (b1 b2 : CheckoutBody) (r1 r2 : ℚ)
    (t1 t2 : String) (hu : b1.userId = b2.userId) (hn : b1.name = b2.name)
    (he : b1.email = b2.email) :
    (checkout db b1 r1 t1).db = (checkout db b2 r2 t2).db ∧
    (checkout db b1 r1 t1).response.status = (checkout db b2 r2 t2).response.status ∧
    (∀ m1 rc1 m2 rc2, (checkout db b1 r1 t1).response.body = .receipt m1 rc1 →
      (checkout db b2 r2 t2).response.body = .receipt m2 rc2 →
      rc1.totalPaid = rc2.totalPaid ∧ rc1.items = rc2.items ∧ rc1.customer = rc2.customer) ∧
    checkout db b1 r1 t1 = checkout db b2 r1 t1 := by
  have hc := checkout_congr db b1 b2 r1 t1 hu hn he
  rw [hc]
  obtain ⟨h1, h2, _, h4⟩ := checkout_db_indep db b2 r1 r2 t1 t2
  exact ⟨h1, h2, h4, rfl⟩

/-- Instance of C26 on the example store: user 7 checks out once with the
fields of the page and once with a forged total of 0.01. -/
theorem checkout_ignores_client_totals_witness :
    (checkout exampleDb exampleCheckout (1 / 2) "t").db =
      (checkout exampleDb forgedCheckout (1 / 4) "u").db ∧
    (checkout exampleDb exampleCheckout (1 / 2) "t").response.status =
      (checkout exampleDb forgedCheckout (1 / 4) "u").response.status ∧
    checkout exampleDb exampleCheckout (1 / 2) "t" =
      checkout exampleDb forgedCheckout (1 / 2) "t" :=
  have w := checkout_ignores_client_totals exampleDb exampleCheckout forgedCheckout (1 / 2)
    (1 / 4) "t" "u" rfl rfl rfl
  ⟨w.1, w.2.1, w.2.2.2⟩

theorem items_nil_of_unresolvable (ls : List CartLine) (ps : List Product)
    (h : ∀ l ∈ ls, resolvable ps l = false) : (calculateTotals ls ps).items = [] := by
  rw [calculateTotals_items, List.filterMap_eq_nil_iff]
  intro l hl
  have hr := h l hl
  rw [resolvable_iff] at hr
  cases hres : resolve ps l with
  | none => rfl
  | some p => rw [hres] at hr; exact Bool.noConfusion hr

/-- C27: when the user has cart lines but none of them resolves to a catalog
product, checkout with userId, name and email present answers 200 with a
receipt that has no item and totalPaid 15.00, and no line of the user is left in
the cart. -/
theorem checkout_unresolvable_cart (db : Db) (body : CheckoutBody) (random : ℚ)
    (timestamp : String) (hu : truthy body.userId = true) (hn : truthy body.name = true)
    (he : truthy body.email = true) (hc : cartFind db.cart (parseInt body.userId) ≠ [])
    (hres : ∀ l ∈ cartFind db.cart (parseInt body.userId), resolvable db.products l = false) :
    (checkout db body random timestamp).response.status = 200 ∧
    (∃ message receipt,
      (checkout db body random timestamp).response.body = .receipt message receipt ∧
      receipt.items = [] ∧ receipt.totalPaid = 15) ∧
    cartFind (checkout db body random timestamp).db.cart (parseInt body.userId) = [] := by
  have hitems := items_nil_of_unresolvable _ db.products hres
  have hview := calculateTotals_of_no_item _ db.products hitems
  rw [checkout_ok db body random timestamp hu hn he hc]
  refine ⟨rfl, ⟨_, _, rfl, hitems, ?_⟩, cartFind_deleteMany _ _⟩
  show (calculateTotals (cartFind db.cart (parseInt body.userId)) db.products).grandTotal = 15
  rw [hview]

/-- Instance of C27: user 7 checks out the orphan line. -/
theorem checkout_unresolvable_cart_witness :
    (checkout orphanDb exampleCheckout (1 / 2) "t").response.status = 200 ∧
    (∃ message receipt,
      (checkout orphanDb exampleCheckout (1 / 2) "t").response.body =
        .receipt message receipt ∧
      receipt.items = [] ∧ receipt.totalPaid = 15) ∧
    cartFind (checkout orphanDb exampleCheckout (1 / 2) "t").db.cart
      (parseInt exampleCheckout.userId) = [] :=
  checkout_unresolvable_cart orphanDb exampleCheckout (1 / 2) "t" (by decide) (by decide)
    (by decide) (by decide) (by decide)

/-! ## Lemmas on whole cents and on monotonicity -/

theorem mem_of_resolve (ps : List Product) (l : CartLine) (p : Product)
    (h : resolve ps l = some p) : p ∈ ps := by
  unfold resolve at h
  exact List.mem_of_find?_eq_some h

theorem rawSubtotal_cons (l : CartLine) (ls : List CartLine) (ps : List Product) :
    rawSubtotal (l :: ls) ps =
      (match resolve ps l with
        | some p => l.qty * p.price
        | none => 0) + rawSubtotal ls ps := by
  unfold rawSubtotal
  cases h : resolve ps l <;> simp [List.filterMap_cons, h]

theorem rawSubtotal_append (ls ms : List CartLine) (ps : List Product) :
    rawSubtotal (ls ++ ms) ps = rawSubtotal ls ps + rawSubtotal ms ps := by
  unfold rawSubtotal
  rw [List.filterMap_append, List.sum_append]

/-- With prices and quantities in whole cents and whole units, the lineTotals
are exact, they add up to the unrounded subtotal, and that subtotal is a whole
number of cents. -/
theorem cents_lines (ls : List CartLine) (ps : List Product)
    (hp : ∀ p ∈ ps, ∃ c : ℕ, p.price = (c : ℚ) / 100)
    (hq : ∀ l ∈ ls, ∃ n : ℕ, l.qty = (n : ℚ)) :
    (∀ i ∈ (calculateTotals ls ps).items, i.lineTotal = i.qty * i.price) ∧
    ((calculateTotals ls ps).items.map fun i => i.lineTotal).sum = rawSubtotal ls ps ∧
    ∃ c : ℤ, rawSubtotal ls ps = (c : ℚ) / 100 := by
  simp only [calculateTotals_items]
  induction ls with
  | nil => exact ⟨fun i hi => absurd hi (List.not_mem_nil _), rfl, 0, by simp [rawSubtotal]⟩
  | cons l ls ih =>
    obtain ⟨ih1, ih2, c, ih3⟩ := ih (fun x hx => hq x (List.mem_cons_of_mem _ hx))
    obtain ⟨n, hn⟩ := hq l (List.mem_cons_self _ _)
    rw [rawSubtotal_cons]
    cases hr : resolve ps l with
    | none =>
      simp only [List.filterMap_cons, hr, Option.map_none', zero_add]
      exact ⟨ih1, ih2, c, ih3⟩
    | some p =>
      obtain ⟨k, hk⟩ := hp p (mem_of_resolve ps l p hr)
      have hexact : round2 (l.qty * p.price) = l.qty * p.price := by
        have e : l.qty * p.price = (((n * k : ℕ) : ℤ) : ℚ) / 100 := by
          rw [hn, hk]; push_cast; ring
        rw [e, round2_cents]
      simp only [List.filterMap_cons, hr, Option.map_some', List.map_cons, List.sum_cons]
      refine ⟨?_, ?_, (n * k : ℕ) + c, ?_⟩
      · intro i hi
        rcases List.mem_cons.mp hi with hi | hi
        · rw [hi]; exact hexact
        · exact ih1 i hi
      · rw [ih2, hexact]
      · rw [ih3, hn, hk]; push_cast; ring

theorem grandTotal_of_cents (ls : List CartLine) (ps : List Product) (c : ℤ)
    (hc : rawSubtotal ls ps = (c : ℚ) / 100) :
    (calculateTotals ls ps).subtotal = rawSubtotal ls ps ∧
    (calculateTotals ls ps).grandTotal =
      (calculateTotals ls ps).subtotal + (calculateTotals ls ps).tax + 15 := by
  have hs : (calculateTotals ls ps).subtotal = rawSubtotal ls ps := by
    rw [calculateTotals_subtotal, hc, round2_cents]
  refine ⟨hs, ?_⟩
  rw [hs, calculateTotals_grandTotal, calculateTotals_tax, hc]
  have e : (c : ℚ) / 100 + (c : ℚ) / 100 * (8 / 100) + 15 =
      (c : ℚ) / 100 * (8 / 100) + ((c + 1500 : ℤ) : ℚ) / 100 := by push_cast; ring
  rw [e, round2_add_cents]
  push_cast
  ring

/-- C28: when every price of the catalog is a non-negative whole number of
cents and every quantity of the cart a non-negative integer, each lineTotal is
qty × price exactly, the returned subtotal is the sum of the returned
lineTotals, and the returned grandTotal is the returned subtotal + the returned
tax + 15.00. -/
theorem calculateTotals_whole_cents (ls : List CartLine) (ps : List Product)
    (hp : ∀ p ∈ ps, ∃ c : ℕ, p.price = (c : ℚ) / 100)
    (hq : ∀ l ∈ ls, ∃ n : ℕ, l.qty = (n : ℚ)) :
    (∀ i ∈ (calculateTotals ls ps).items, i.lineTotal = i.qty * i.price) ∧
    (calculateTotals ls ps).subtotal =
      ((calculateTotals ls ps).items.map fun i => i.lineTotal).sum ∧
    (calculateTotals ls ps).grandTotal =
      (calculateTotals ls ps).subtotal + (calculateTotals ls ps).tax + 15 := by
  obtain ⟨h1, h2, c, h3⟩ := cents_lines ls ps hp hq
  obtain ⟨h4, h5⟩ := grandTotal_of_cents ls ps c h3
  exact ⟨h1, by rw [h4, h2], h5⟩

/-- Instance of C28: two mugs at 10.00 and three pens at 1.50. -/
theorem calculateTotals_whole_cents_witness :
    (∀ i ∈ (calculateTotals centsLines centsCatalog).items, i.lineTotal = i.qty * i.price) ∧
    (calculateTotals centsLines centsCatalog).subtotal =
      ((calculateTotals centsLines centsCatalog).items.map fun i => i.lineTotal).sum ∧
    (calculateTotals centsLines centsCatalog).grandTotal =
      (calculateTotals centsLines centsCatalog).subtotal +
        (calculateTotals centsLines centsCatalog).tax + 15 :=
  calculateTotals_whole_cents centsLines centsCatalog
    (by
      intro p hp
      simp only [centsCatalog, List.mem_cons, List.mem_singleton, List.not_mem_nil,
        or_false] at hp
      rcases hp with hp | hp
      · exact ⟨1000, by rw [hp]; norm_num⟩
      · exact ⟨150, by rw [hp]; norm_num⟩)
    (by
      intro l hl
      simp only [centsLines, List.mem_cons, List.mem_singleton, List.not_mem_nil,
        or_false] at hl
      rcases hl with hl | hl
      · exact ⟨2, by rw [hl]; norm_num⟩
      · exact ⟨3, by rw [hl]; norm_num⟩)

theorem round2_of_nonneg (x : ℚ) (hx : 0 ≤ x) :
    round2 x = ((⌊x * 100 + 1 / 2⌋ : ℤ) : ℚ) / 100 := by
  unfold round2
  simp only [not_lt.mpr hx, if_false, abs_of_nonneg hx]

theorem round2_mono (x y : ℚ) (hx : 0 ≤ x) (hxy : x ≤ y) : round2 x ≤ round2 y := by
  rw [round2_of_nonneg x hx, round2_of_nonneg y (le_trans hx hxy)]
  have hfl : ⌊x * 100 + 1 / 2⌋ ≤ ⌊y * 100 + 1 / 2⌋ := Int.floor_mono (by linarith)
  have hcast : ((⌊x * 100 + 1 / 2⌋ : ℤ) : ℚ) ≤ ((⌊y * 100 + 1 / 2⌋ : ℤ) : ℚ) := by
    exact_mod_cast hfl
  linarith

theorem rawSubtotal_nonneg (ls : List CartLine) (ps : List Product)
    (hp : ∀ p ∈ ps, 0 ≤ p.price) (hq : ∀ l ∈ ls, 0 ≤ l.qty) : 0 ≤ rawSubtotal ls ps := by
  induction ls with
  | nil => simp [rawSubtotal]
  | cons l ls ih =>
    have ih2 := ih (fun x hx => hq x (List.mem_cons_of_mem _ hx))
    rw [rawSubtotal_cons]
    cases hr : resolve ps l with
    | none => simpa using ih2
    | some p =>
      have := mul_nonneg (hq l (List.mem_cons_self _ _)) (hp p (mem_of_resolve ps l p hr))
      exact add_nonneg this ih2

theorem totals_le_of_rawSubtotal_le (ls ms : List CartLine) (ps : List Product)
    (h0 : 0 ≤ rawSubtotal ls ps) (hle : rawSubtotal ls ps ≤ rawSubtotal ms ps) :
    (calculateTotals ls ps).subtotal ≤ (calculateTotals ms ps).subtotal ∧
    (calculateTotals ls ps).tax ≤ (calculateTotals ms ps).tax ∧
    (calculateTotals ls ps).grandTotal ≤ (calculateTotals ms ps).grandTotal := by
  simp only [calculateTotals_subtotal, calculateTotals_tax, calculateTotals_grandTotal]
  refine ⟨round2_mono _ _ h0 hle, round2_mono _ _ (by linarith) (by linarith),
    round2_mono _ _ (by linarith) (by linarith)⟩

/-- C30: for a catalog with non-negative prices and carts with non-negative
quantities, calculateTotals returns subtotal ≥ 0, tax ≥ 0 and grandTotal ≥ 15;
raising the quantity of one line, or appending a line, lowers none of the
returned subtotal, tax and grandTotal. -/
theorem calculateTotals_monotone (ps : List Product) (hp : ∀ p ∈ ps, 0 ≤ p.price) :
    (∀ ls : List CartLine, (∀ l ∈ ls, 0 ≤ l.qty) →
      0 ≤ (calculateTotals ls ps).subtotal ∧ 0 ≤ (calculateTotals ls ps).tax ∧
      15 ≤ (calculateTotals ls ps).grandTotal) ∧
    (∀ (pre post : List CartLine) (l : CartLine) (q : ℚ),
      (∀ x ∈ pre ++ l :: post, 0 ≤ x.qty) → l.qty ≤ q →
      (calculateTotals (pre ++ l :: post) ps).subtotal ≤
        (calculateTotals (pre ++ { l with qty := q } :: post) ps).subtotal ∧
      (calculateTotals (pre ++ l :: post) ps).tax ≤
        (calculateTotals (pre ++ { l with qty := q } :: post) ps).tax ∧
      (calculateTotals (pre ++ l :: post) ps).grandTotal ≤
        (calculateTotals (pre ++ { l with qty := q } :: post) ps).grandTotal) ∧
    (∀ (ls : List CartLine) (l : CartLine), (∀ x ∈ ls, 0 ≤ x.qty) → 0 ≤ l.qty →
      (calculateTotals ls ps).subtotal ≤ (calculateTotals (ls ++ [l]) ps).subtotal ∧
      (calculateTotals ls ps).tax ≤ (calculateTotals (ls ++ [l]) ps).tax ∧
      (calculateTotals ls ps).grandTotal ≤ (calculateTotals (ls ++ [l]) ps).grandTotal) := by
  refine ⟨?_, ?_, ?_⟩
  · intro ls hq
    have h0 := rawSubtotal_nonneg ls ps hp hq
    simp only [calculateTotals_subtotal, calculateTotals_tax, calculateTotals_grandTotal]
    refine ⟨?_, ?_, ?_⟩
    · have := round2_mono 0 _ le_rfl h0
      rwa [round2_zero] at this
    · have := round2_mono 0 (rawSubtotal ls ps * (8 / 100)) le_rfl (by linarith)
      rwa [round2_zero] at this
    · have := round2_mono 15 (rawSubtotal ls ps + rawSubtotal ls ps * (8 / 100) + 15)
        (by norm_num) (by linarith)
      rwa [round2_fifteen] at this
  · intro pre post l q hq hle
    apply totals_le_of_rawSubtotal_le
    · exact rawSubtotal_nonneg _ ps hp hq
    · rw [rawSubtotal_append, rawSubtotal_append, rawSubtotal_cons, rawSubtotal_cons]
      have hres : resolve ps { l with qty := q } = resolve ps l := rfl
      rw [hres]
      cases hr : resolve ps l with
      | none => exact le_rfl
      | some p =>
        have hprice := hp p (mem_of_resolve ps l p hr)
        have : l.qty * p.price ≤ q * p.price := mul_le_mul_of_nonneg_right hle hprice
        exact add_le_add_left (add_le_add_right this _) _
  · intro ls l hq hl
    apply totals_le_of_rawSubtotal_le
    · exact rawSubtotal_nonneg _ ps hp hq
    · rw [rawSubtotal_append]
      have := rawSubtotal_nonneg [l] ps hp (by
        intro x hx
        rw [List.mem_singleton] at hx
        rw [hx]; exact hl)
      linarith

/-- Instance of C30 on the catalog of the worked example: the cart of the
example, the same cart with 5 units instead of 2, and the cart with one more
line. -/
theorem calculateTotals_monotone_witness :
    (0 ≤ (calculateTotals exampleLines exampleCatalog).subtotal ∧
      0 ≤ (calculateTotals exampleLines exampleCatalog).tax ∧
      15 ≤ (calculateTotals exampleLines exampleCatalog).grandTotal) ∧
    (calculateTotals ([] ++ ({ userId := some 7, productId := some 1, qty := 2 } : CartLine)
        :: []) exampleCatalog).grandTotal ≤
      (calculateTotals ([] ++
        { ({ userId := some 7, productId := some 1, qty := 2 } : CartLine) with qty := 5 }
        :: []) exampleCatalog).grandTotal ∧
    (calculateTotals exampleLines exampleCatalog).grandTotal ≤
      (calculateTotals (exampleLines ++ [{ userId := some 7, productId := some 1, qty := 1 }])
        exampleCatalog).grandTotal :=
  have hp : ∀ p ∈ exampleCatalog, 0 ≤ p.price := by
    intro p hp
    simp only [exampleCatalog, List.mem_singleton] at hp
    rw [hp]; norm_num
  have hq : ∀ l ∈ exampleLines, 0 ≤ l.qty := by
    intro l hl
    simp only [exampleLines, List.mem_singleton] at hl
    rw [hl]; norm_num
  ⟨(calculateTotals_monotone exampleCatalog hp).1 exampleLines hq,
    ((calculateTotals_monotone exampleCatalog hp).2.1 [] []
      { userId := some 7, productId := some 1, qty := 2 } 5 hq (by norm_num)).2.2,
    ((calculateTotals_monotone exampleCatalog hp).2.2 exampleLines
      { userId := some 7, productId := some 1, qty := 1 } hq (by norm_num)).2.2⟩

end EShop
